import Mathlib

/-!
Shallow embedding of the ClubOK reservation bot (src/bot.py) and
verification of its specification claims.

The embedding models the process-wide mutable state (bookings_db,
tables_db, reviews_db and the per-user aiogram FSM sessions) as an
explicit state record, and each aiogram handler of bot.py as a pure
function from state (plus the externally supplied inputs: current time,
current date, sender identity, message payload) to a new state together
with a list of emitted side effects.  Message/keyboard rendering and the
transport are out of scope of the spec (spec section 1), so composed
message texts are carried either verbatim (static strings) or as
semantic output constructors where the original interpolates floats or
full templates.
-/

namespace ClubOK

/-- Models Python str.isdigit for ASCII digit strings (empty string is False). -/
def pyIsDigit (t : String) : Bool :=
  !t.isEmpty && t.toList.all Char.isDigit

/-- Models Python int(...) on a digit-only string. -/
def pyToNat (t : String) : Nat :=
  t.toList.foldl (fun acc c => acc * 10 + (c.toNat - 48)) 0

/-- Models the Python expression that keeps only digit characters of a text:
a direct rendition of the join/filter used for phone normalization. -/
def digitsOf (t : String) : String :=
  String.mk (t.toList.filter Char.isDigit)

/-- Models the booking/review id derivation in bot.py:
str(timestamp).replace(dot, empty)[-8:], i.e. drop the decimal point and
keep the last eight characters. -/
def deriveId (ts : String) : String :=
  String.mk (((ts.toList.filter (fun c => c != '.')).reverse.take 8).reverse)

/-- Gregorian leap year, as validated by datetime.strptime. -/
def isLeap (y : Nat) : Bool :=
  (y % 4 == 0 && y % 100 != 0) || y % 400 == 0

/-- Days in a month of a given year. -/
def daysInMonth (y m : Nat) : Nat :=
  if m == 2 then (if isLeap y then 29 else 28)
  else if m == 4 || m == 6 || m == 9 || m == 11 then 30
  else 31

/-- Days of year y before month m. -/
def daysBeforeMonth (y m : Nat) : Nat :=
  (List.range (m - 1)).foldl (fun acc i => acc + daysInMonth y (i + 1)) 0

/-- Proleptic Gregorian ordinal of a (day, month, year) triple, matching
Python date.toordinal; only comparisons and differences of ordinals are
used by the handlers. -/
def dateOrdinal (dmy : Nat × Nat × Nat) : Nat :=
  let d := dmy.1; let m := dmy.2.1; let y := dmy.2.2
  365 * (y - 1) + (y - 1) / 4 - (y - 1) / 100 + (y - 1) / 400 + daysBeforeMonth y m + d

/-- Character-level splitter: models Python str.split with a one-character
separator (structurally recursive so that proofs can evaluate it). -/
def splitOnCharAux (c : Char) : List Char → List Char → List String
  | [], acc => [String.mk acc.reverse]
  | x :: xs, acc =>
    if x == c then String.mk acc.reverse :: splitOnCharAux c xs []
    else splitOnCharAux c xs (x :: acc)

/-- Split a string at every occurrence of a separator character. -/
def splitOnChar (c : Char) (t : String) : List String :=
  splitOnCharAux c t.toList []

/-- Models Python str.startswith on character lists (structurally
recursive so that proofs can evaluate it). -/
def leadsWith : List Char → List Char → Bool
  | [], _ => true
  | _ :: _, [] => false
  | p :: ps, x :: xs => p == x && leadsWith ps xs

/-- Models datetime.strptime(text, day.month.year pattern).date(): splits on
dots, requires three numeric components forming a valid calendar date.
(Left-padding tolerances of strptime are approximated; no claim depends on
these lexical edge cases.) -/
def parseDate (t : String) : Option (Nat × Nat × Nat) :=
  match splitOnChar '.' t with
  | [d, m, y] =>
    if pyIsDigit d && pyIsDigit m && pyIsDigit y then
      let dn := pyToNat d; let mn := pyToNat m; let yn := pyToNat y
      if 1 ≤ mn && mn ≤ 12 && 1 ≤ dn && dn ≤ daysInMonth yn mn then some (dn, mn, yn)
      else none
    else none
  | _ => none

/-- Models the aiogram Command start filter. -/
def isStartCommand (t : String) : Bool :=
  t == "/start" || leadsWith "/start ".toList t.toList

/-- The aiogram FSM states of class BookingStates, plus the implicit idle
state of a cleared context. -/
inductive ConvState
  | idle
  | waitCottageDate
  | waitCottageGuests
  | waitTableDate
  | waitTableGuests
  | waitContact
  | waitAdminComment
  | waitTablesCount
  | waitReviewRating
  | waitReviewText
deriving Repr, DecidableEq

/-- The FSM data dictionary of a session (state.update_data merges keys,
state.clear empties it). -/
structure SessData where
  booking_date : Option String := none
  booking_type : Option String := none
  guests : Option Nat := none
  rating : Option Nat := none
  booking_id : Option String := none
deriving Repr, DecidableEq

/-- A per-user conversation session: current FSM state tag plus data. -/
structure Session where
  st : ConvState := ConvState.idle
  data : SessData := {}
deriving Repr, DecidableEq

/-- A booking record as stored in bookings_db. -/
structure Booking where
  id : String
  btype : String
  date : String
  guests : Nat
  user_id : Int
  user_name : String
  phone : String
  status : String
  created_at : String
deriving Repr, DecidableEq

/-- A review record as stored in reviews_db.  textVal is an Option because
the original stores the raw message text, which is absent (None) when a
non-text update reaches the review-text handler. -/
structure Review where
  user_id : Int
  user_name : String
  rating : Nat
  textVal : Option String
  date : String
deriving Repr, DecidableEq

/-- The process-wide state: bookings_db, tables_db (available/total),
reviews_db, and the per-user FSM sessions of the MemoryStorage. -/
structure GState where
  bookings : List (String × Booking)
  avail : Int
  total : Int
  reviews : List (String × Review)
  sessions : List (Int × Session)
deriving Repr, DecidableEq

/-- An inbound update: a plain text message or a structured contact payload
(a contact update carries no text). -/
inductive Inbound
  | text (t : String)
  | contact (phone : String)
deriving Repr, DecidableEq

/-- Side effects emitted by a handler.  Static texts are carried verbatim;
statsReply / bookingList / cancelList / infoReply summarize composed
templates whose rendering is out of scope of the spec. -/
inductive Out
  | reply (text : String)
  | send (chatId : Int) (text : String)
  | adminNotify (adminId : Int) (text : String) (decisionFor : Option String)
  | cbAnswer (text : String)
  | editText (text : String)
  | statsReply (pending confirmed rejected : Nat) (avail total : Int) (reviewsCount : Nat)
  | bookingList (ids : List String)
  | cancelList (ids : List String)
  | infoReply (bid : String)
deriving Repr, DecidableEq

/-- Dictionary read: bookings_db.get(bid). -/
def lookupBk (db : List (String × Booking)) (bid : String) : Option Booking :=
  (db.find? (fun p => p.1 == bid)).map Prod.snd

/-- Dictionary write bookings_db[bid] = b (replaces an existing entry). -/
def insertBk (db : List (String × Booking)) (bid : String) (b : Booking) :
    List (String × Booking) :=
  (bid, b) :: db.filter (fun p => p.1 != bid)

/-- In-place status mutation of the record stored under a key. -/
def updateStatusBk (db : List (String × Booking)) (bid : String) (st : String) :
    List (String × Booking) :=
  db.map (fun p => if p.1 == bid then (p.1, { p.2 with status := st }) else p)

/-- The keys of bookings_db. -/
def bookingIds (db : List (String × Booking)) : List String :=
  db.map Prod.fst

/-- Number of bookings with type table and status confirmed. -/
def confirmedTables (db : List (String × Booking)) : Nat :=
  (db.filter (fun p => p.2.btype == "table" && p.2.status == "confirmed")).length

/-- The session of a user (a fresh MemoryStorage context is idle with empty
data). -/
def getSession (s : GState) (uid : Int) : Session :=
  ((s.sessions.find? (fun p => p.1 == uid)).map Prod.snd).getD {}

/-- Store a user session. -/
def setSession (s : GState) (uid : Int) (sess : Session) : GState :=
  { s with sessions := (uid, sess) :: s.sessions.filter (fun p => p.1 != uid) }

/-- state.clear(): reset the FSM state and data of a user. -/
def clearSession (s : GState) (uid : Int) : GState :=
  setSession s uid {}

/-- is_date_available of bot.py: for tables, capacity is date-independent
and the check is available > 0; for cottages, a date is available iff no
confirmed cottage booking already occupies it. -/
def is_date_available (s : GState) (booking_type date : String) : Bool :=
  if booking_type == "table" then decide (0 < s.avail)
  else
    !(((s.bookings.filter (fun p => p.2.btype == "cottage" && p.2.status == "confirmed")).map
        (fun p => p.2.date)).contains date)

/-- notify_admins of bot.py: one message per administrator, with an
accept/reject decision keyboard when a booking id is supplied. -/
def notify_admins (admins : List Int) (text : String) (bid : Option String) : List Out :=
  admins.map (fun a => Out.adminNotify a text bid)

/-- The default state produced by load_data when no prior data exists. -/
def initState : GState :=
  { bookings := [], avail := 10, total := 10, reviews := [], sessions := [] }

/-- cmd_start: greet, picking the admin or the user menu; no state change. -/
def cmd_start (admins : List Int) (uid : Int) (s : GState) : GState × List Out :=
  if admins.contains uid then (s, [Out.reply "👋 Добро пожаловать в админ-панель ClubOK!"])
  else (s, [Out.reply "🎉 Добро пожаловать в ClubOK!"])

/-- donate_handler: reply with the external payment link affordance. -/
def donate_handler (s : GState) : GState × List Out :=
  (s, [Out.reply "💌 Благодарим за вашу щедрость!"])

/-- book_cottage_start: enter the cottage-date state and prompt. -/
def book_cottage_start (uid : Int) (s : GState) : GState × List Out :=
  (setSession s uid { getSession s uid with st := ConvState.waitCottageDate },
   [Out.reply "📅 На какую дату вы хотите забронировать коттедж? (ДД.ММ.ГГГГ)"])

/-- process_cottage_date of bot.py. -/
def process_cottage_date (today : Nat) (uid : Int) (t : String) (s : GState) :
    GState × List Out :=
  if t == "🔙 Отменить" then
    (clearSession s uid, [Out.reply "❌ Бронирование отменено."])
  else
    match parseDate t with
    | none => (s, [Out.reply "❌ Неверный формат даты. Пожалуйста, введите дату в формате ДД.ММ.ГГГГ:"])
    | some dmy =>
      if dateOrdinal dmy < today then
        (s, [Out.reply "❌ Нельзя забронировать коттедж на прошедшую дату. Введите корректную дату:"])
      else if today + 365 < dateOrdinal dmy then
        (s, [Out.reply "❌ Бронирование возможно только на даты в течение года. Введите другую дату:"])
      else if !is_date_available s "cottage" t then
        (s, [Out.reply "❌ К сожалению, коттедж на эту дату уже забронирован. Выберите другую дату:"])
      else
        (setSession s uid
          { st := ConvState.waitCottageGuests,
            data := { (getSession s uid).data with booking_date := some t } },
         [Out.reply "👥 Укажите количество гостей:"])

/-- process_cottage_guests of bot.py. -/
def process_cottage_guests (uid : Int) (t : String) (s : GState) : GState × List Out :=
  if t == "🔙 Отменить" then
    (clearSession s uid, [Out.reply "❌ Бронирование отменено."])
  else if !pyIsDigit t then (s, [Out.reply "❌ Пожалуйста, введите число:"])
  else
    let g := pyToNat t
    if g < 1 ∨ g > 20 then
      (s, [Out.reply "❌ Количество гостей должно быть от 1 до 20. Введите корректное число:"])
    else
      (setSession s uid
        { st := ConvState.waitContact,
          data := { (getSession s uid).data with guests := some g, booking_type := some "cottage" } },
       [Out.reply "📞 Пожалуйста, поделитесь вашим контактом для подтверждения бронирования:"])

/-- book_table_start: refuse at entry when no table is available, else enter
the table-date state. -/
def book_table_start (uid : Int) (s : GState) : GState × List Out :=
  if s.avail ≤ 0 then (s, [Out.reply "😔 К сожалению, сейчас нет свободных столиков."])
  else
    (setSession s uid { getSession s uid with st := ConvState.waitTableDate },
     [Out.reply "📅 На какую дату вы хотите забронировать столик? (ДД.ММ.ГГГГ)"])

/-- process_table_date of bot.py (no availability check on the date). -/
def process_table_date (today : Nat) (uid : Int) (t : String) (s : GState) :
    GState × List Out :=
  if t == "🔙 Отменить" then
    (clearSession s uid, [Out.reply "❌ Бронирование отменено."])
  else
    match parseDate t with
    | none => (s, [Out.reply "❌ Неверный формат даты. Пожалуйста, введите дату в формате ДД.ММ.ГГГГ:"])
    | some dmy =>
      if dateOrdinal dmy < today then
        (s, [Out.reply "❌ Нельзя забронировать столик на прошедшую дату. Введите корректную дату:"])
      else if today + 365 < dateOrdinal dmy then
        (s, [Out.reply "❌ Бронирование возможно только на даты в течение года. Введите другую дату:"])
      else
        (setSession s uid
          { st := ConvState.waitTableGuests,
            data := { (getSession s uid).data with booking_date := some t } },
         [Out.reply "👥 Укажите количество гостей:"])

/-- process_table_guests of bot.py. -/
def process_table_guests (uid : Int) (t : String) (s : GState) : GState × List Out :=
  if t == "🔙 Отменить" then
    (clearSession s uid, [Out.reply "❌ Бронирование отменено."])
  else if !pyIsDigit t then (s, [Out.reply "❌ Пожалуйста, введите число:"])
  else
    let g := pyToNat t
    if g < 1 ∨ g > 10 then
      (s, [Out.reply "❌ Количество гостей за 1 стол должно быть от 1 до 10. Введите корректное число:"])
    else
      (setSession s uid
        { st := ConvState.waitContact,
          data := { (getSession s uid).data with guests := some g, booking_type := some "table" } },
       [Out.reply "📞 Пожалуйста, поделитесь вашим контактом для подтверждения бронирования:"])

/-- The booking-creation function of bot.py (the underscore-prefixed shared
save helper): duplicate-pending check, id allocation from the current
timestamp, store as pending, notify administrators with a decision
affordance.  The wildcard branch models the KeyError path when the FSM data
lacks a field: the surrounding except handler clears the session. -/
def saveBooking (admins : List Int) (nowTs nowIso : String) (uid : Int)
    (fullName phone : String) (s : GState) : GState × List Out :=
  let sess := getSession s uid
  match sess.data.booking_date, sess.data.booking_type, sess.data.guests with
  | some bdate, some btype, some guests =>
    if s.bookings.any (fun p =>
        p.2.user_id == uid && p.2.date == bdate && p.2.btype == btype && p.2.status == "pending") then
      (clearSession s uid, [Out.reply "⚠️ У вас уже есть ожидающее бронирование на эту дату."])
    else
      let booking_id := deriveId nowTs
      let bk : Booking :=
        { id := booking_id, btype := btype, date := bdate, guests := guests,
          user_id := uid, user_name := fullName, phone := phone,
          status := "pending", created_at := nowIso }
      let s' := { s with bookings := insertBk s.bookings booking_id bk }
      (clearSession s' uid,
       notify_admins admins
         ("📌 Новая заявка на бронирование: Тип: " ++
          (if btype == "cottage" then "Коттедж" else "Столик") ++
          " Дата: " ++ bdate ++ " Гостей: " ++ toString guests ++
          " Клиент: " ++ fullName ++ " Телефон: " ++ phone ++
          " ID брони: " ++ booking_id)
         (some booking_id)
       ++ [Out.reply "✅ Ваша заявка принята! Ожидайте подтверждения от администратора."])
  | _, _, _ => (clearSession s uid, [])

/-- process_contact: a structured contact payload supplies the phone
directly. -/
def process_contact (admins : List Int) (nowTs nowIso : String) (uid : Int)
    (fullName phone : String) (s : GState) : GState × List Out :=
  saveBooking admins nowTs nowIso uid fullName phone s

/-- process_contact_manual of bot.py: cancel, manual-entry prompt, or
digit-normalized phone of at least 11 digits. -/
def process_contact_manual (admins : List Int) (nowTs nowIso : String) (uid : Int)
    (fullName : String) (t : String) (s : GState) : GState × List Out :=
  if t == "🔙 Отменить" then
    (clearSession s uid, [Out.reply "❌ Бронирование отменено."])
  else if t == "📞 Ввести номер вручную" then
    (s, [Out.reply "📱 Введите ваш номер телефона в формате +79991234567:"])
  else
    let phone := digitsOf t
    if phone.length < 11 then
      (s, [Out.reply "❌ Неверный формат телефона. Пожалуйста, введите номер в формате +79991234567:"])
    else saveBooking admins nowTs nowIso uid fullName phone s

/-- start_review: gated on the author having a confirmed booking. -/
def start_review (uid : Int) (s : GState) : GState × List Out :=
  if s.bookings.any (fun p => p.2.user_id == uid && p.2.status == "confirmed") then
    (setSession s uid { getSession s uid with st := ConvState.waitReviewRating },
     [Out.reply "Оцените ваш визит от 1 до 5 звезд:"])
  else (s, [Out.reply "❌ Вы можете оставить отзыв только после посещения нашего заведения."])

/-- The dispatch filter of the review-rating handler: a regexp match of the
star pattern anchored at the start of the text. -/
def reviewRatingMatches (t : String) : Bool :=
  ["⭐️ 1", "⭐️ 2", "⭐️ 3", "⭐️ 4", "⭐️ 5"].any (fun p => leadsWith p.toList t.toList)

/-- process_review_rating of bot.py: rating := int of the second
whitespace token; a non-numeric token raises and the except handler clears
the session. -/
def process_review_rating (uid : Int) (t : String) (s : GState) : GState × List Out :=
  let token := (splitOnChar ' ' t).getD 1 ""
  if pyIsDigit token then
    (setSession s uid
      { st := ConvState.waitReviewText,
        data := { (getSession s uid).data with rating := some (pyToNat token) } },
     [Out.reply "Напишите ваш отзыв (или нажмите Пропустить):"])
  else (clearSession s uid, [])

/-- process_review_text of bot.py.  The text argument is an Option: a
non-text update reaching this state stores an absent text.  A missing
rating key raises and the except handler clears the session. -/
def process_review_text (admins : List Int) (nowTs nowIso : String) (uid : Int)
    (fullName : String) (t? : Option String) (s : GState) : GState × List Out :=
  if t? == some "🔙 Отменить" then
    (clearSession s uid, [Out.reply "❌ Отзыв не сохранен."])
  else
    let sess := getSession s uid
    match sess.data.rating with
    | none => (clearSession s uid, [])
    | some rating =>
      let review_id := deriveId nowTs
      let textVal : Option String :=
        match t? with
        | some t => some (if t == "Пропустить" then "" else t)
        | none => none
      let rv : Review :=
        { user_id := uid, user_name := fullName, rating := rating,
          textVal := textVal, date := nowIso }
      let s' := { s with reviews := (review_id, rv) :: s.reviews.filter (fun p => p.1 != review_id) }
      (clearSession s' uid,
       [Out.reply "Спасибо за ваш отзыв!"] ++
       notify_admins admins
         ("⭐️ Новый отзыв! Оценка: " ++ toString rating ++ "/5" ++
          (match textVal with
           | some tx => if tx != "" then " Отзыв: " ++ tx else ""
           | none => ""))
         none)

/-- Descending insertion by created_at, matching the reverse sort used by
the admin listings. -/
def insertCreatedDesc (b : Booking) : List Booking → List Booking
  | [] => [b]
  | x :: xs =>
    if b.created_at > x.created_at ∨ b.created_at == x.created_at then b :: x :: xs
    else x :: insertCreatedDesc b xs

/-- Sort bookings by created_at, newest first. -/
def sortByCreatedDesc (l : List Booking) : List Booking :=
  l.foldr insertCreatedDesc []

/-- show_stats: admin-gated (silently ignored otherwise); the reply carries
the booking counts, the ledger, and the review count (the average-rating
float formatting is rendering, elided). -/
def show_stats (admins : List Int) (uid : Int) (s : GState) : GState × List Out :=
  if !admins.contains uid then (s, [])
  else
    (s, [Out.statsReply
          ((s.bookings.filter (fun p => p.2.status == "pending")).length)
          ((s.bookings.filter (fun p => p.2.status == "confirmed")).length)
          ((s.bookings.filter (fun p => p.2.status == "rejected")).length)
          s.avail s.total s.reviews.length])

/-- list_bookings: admin-gated (silently ignored otherwise); the ten newest
bookings as decision-token buttons. -/
def list_bookings (admins : List Int) (uid : Int) (s : GState) : GState × List Out :=
  if !admins.contains uid then (s, [])
  else
    (s, [Out.bookingList (((sortByCreatedDesc (s.bookings.map Prod.snd)).take 10).map Booking.id)])

/-- cancel_booking_start: admin-gated (silently ignored otherwise); lists
confirmed bookings as cancellation-token buttons. -/
def cancel_booking_start (admins : List Int) (uid : Int) (s : GState) : GState × List Out :=
  if !admins.contains uid then (s, [])
  else
    let active := (s.bookings.map Prod.snd).filter (fun b => b.status == "confirmed")
    if active.isEmpty then (s, [Out.reply "❌ Нет активных бронирований для отмены."])
    else (s, [Out.cancelList (((sortByCreatedDesc active).take 10).map Booking.id)])

/-- change_tables_start: admin-gated (silently ignored otherwise); enter the
tables-count state. -/
def change_tables_start (admins : List Int) (uid : Int) (s : GState) : GState × List Out :=
  if !admins.contains uid then (s, [])
  else
    (setSession s uid { getSession s uid with st := ConvState.waitTablesCount },
     [Out.reply ("✏️ Текущее количество столиков: " ++ toString s.total ++
                 " Доступно: " ++ toString s.avail ++
                 " Введите новое общее количество столиков:")])

/-- process_tables_count of bot.py: the resize operation.  Rejects a
non-numeric text, a new total below 1, and a new total below the number of
already-booked tables; otherwise sets the total and recomputes available. -/
def process_tables_count (uid : Int) (t : String) (s : GState) : GState × List Out :=
  if !pyIsDigit t then (s, [Out.reply "❌ Пожалуйста, введите число:"])
  else
    let new_count : Int := (pyToNat t : Int)
    if new_count < 1 then
      (s, [Out.reply "❌ Количество столиков должно быть положительным числом. Введите корректное значение:"])
    else
      let booked := s.total - s.avail
      if new_count < booked then
        (s, [Out.reply ("❌ Нельзя установить меньше " ++ toString booked ++ " столиков (уже забронировано).")])
      else
        (clearSession { s with total := new_count, avail := new_count - booked } uid,
         [Out.reply ("✅ Количество столиков изменено. Теперь доступно " ++
                     toString (new_count - booked) ++ "/" ++ toString new_count)])

/-- process_confirm of bot.py: not-found and already-decided guards, the
table-capacity guard, then status := confirmed and a table reserves one
unit. -/
def process_confirm (bid : String) (s : GState) : GState × List Out :=
  match lookupBk s.bookings bid with
  | none => (s, [Out.cbAnswer "❌ Бронирование не найдено!"])
  | some b =>
    if b.status ≠ "pending" then (s, [Out.cbAnswer "ℹ️ Это бронирование уже обработано!"])
    else if b.btype = "table" ∧ s.avail ≤ 0 then (s, [Out.cbAnswer "❌ Нет свободных столиков!"])
    else
      ({ s with bookings := updateStatusBk s.bookings bid "confirmed",
                avail := if b.btype == "table" then s.avail - 1 else s.avail },
       [Out.editText ("✅ Бронирование " ++ bid ++ " подтверждено!"),
        Out.send b.user_id
          ("🎉 Ваше бронирование подтверждено! Тип: " ++
           (if b.btype == "cottage" then "Коттедж" else "Столик") ++
           " Дата: " ++ b.date ++ " Гостей: " ++ toString b.guests ++ " Ждем вас в ClubOK!"),
        Out.cbAnswer ""])

/-- process_reject of bot.py: guards, status := rejected (no ledger change:
a pending booking holds no unit), then the acting admin enters the
admin-comment state with the booking id recorded. -/
def process_reject (uid : Int) (bid : String) (s : GState) : GState × List Out :=
  match lookupBk s.bookings bid with
  | none => (s, [Out.cbAnswer "❌ Бронирование не найдено!"])
  | some b =>
    if b.status ≠ "pending" then (s, [Out.cbAnswer "ℹ️ Это бронирование уже обработано!"])
    else
      let s1 := { s with bookings := updateStatusBk s.bookings bid "rejected" }
      (setSession s1 uid
        { st := ConvState.waitAdminComment,
          data := { (getSession s1 uid).data with booking_id := some bid } },
       [Out.editText ("❌ Бронирование " ++ bid ++ " отклонено!"),
        Out.reply "📝 Укажите причину отказа (это сообщение увидит клиент):",
        Out.cbAnswer ""])

/-- process_cancel of bot.py: only a confirmed booking may be cancelled; the
booking is left untouched here and the acting admin enters the
admin-comment state with the booking id recorded. -/
def process_cancel (uid : Int) (bid : String) (s : GState) : GState × List Out :=
  match lookupBk s.bookings bid with
  | none => (s, [Out.cbAnswer "❌ Бронирование не найдено!"])
  | some b =>
    if b.status ≠ "confirmed" then
      (s, [Out.cbAnswer "ℹ️ Это бронирование уже отменено или не подтверждено!"])
    else
      (setSession s uid
        { st := ConvState.waitAdminComment,
          data := { (getSession s uid).data with booking_id := some bid } },
       [Out.reply "📝 Укажите причину отмены (это сообщение увидит клиент):",
        Out.cbAnswer ""])

/-- show_booking_info: read-only info reply. -/
def show_booking_info (bid : String) (s : GState) : GState × List Out :=
  match lookupBk s.bookings bid with
  | none => (s, [Out.cbAnswer "❌ Бронирование не найдено!"])
  | some _ => (s, [Out.infoReply bid, Out.cbAnswer ""])

/-- process_admin_comment of bot.py: the recorded booking, when not already
rejected, releases one table unit if of type table and becomes rejected;
the requester is notified with the comment text as the reason (an absent
text renders as the Python None literal); the session is always cleared.
A missing booking-id key raises and the except handler clears the
session. -/
def process_admin_comment (uid : Int) (t? : Option String) (s : GState) : GState × List Out :=
  match (getSession s uid).data.booking_id with
  | none => (clearSession s uid, [])
  | some bid =>
    match lookupBk s.bookings bid with
    | none => (clearSession s uid, [Out.reply "❌ Бронирование не найдено!"])
    | some b =>
      let s1 :=
        if b.status ≠ "rejected" then
          { s with bookings := updateStatusBk s.bookings bid "rejected",
                   avail := if b.btype == "table" then s.avail + 1 else s.avail }
        else s
      let reason := t?.getD "None"
      (clearSession s1 uid,
       [Out.send b.user_id
          ("😔 К сожалению, ваше бронирование отклонено. Тип: " ++
           (if b.btype == "cottage" then "Коттедж" else "Столик") ++
           " Дата: " ++ b.date ++ " Гостей: " ++ toString b.guests ++
           " Причина: " ++ reason ++ " Вы можете создать новое бронирование."),
        Out.reply ("✅ Клиент уведомлен об отмене бронирования. ID: " ++ bid ++
                   " Причина: " ++ reason)])

/-- Dispatch of a plain text message, in handler registration order: the
Command filter, the text-equality filters and the FSM-state filters of
bot.py, tried top to bottom exactly as registered. -/
def handleText (admins : List Int) (nowTs nowIso : String) (today : Nat)
    (uid : Int) (fullName : String) (t : String) (s : GState) : GState × List Out :=
  if isStartCommand t then cmd_start admins uid s
  else if t == "💸 Оставить чаевые" then donate_handler s
  else if t == "🏠 Забронировать коттедж" then book_cottage_start uid s
  else if (getSession s uid).st == ConvState.waitCottageDate then process_cottage_date today uid t s
  else if (getSession s uid).st == ConvState.waitCottageGuests then process_cottage_guests uid t s
  else if t == "🍾 Забронировать столик" then book_table_start uid s
  else if (getSession s uid).st == ConvState.waitTableDate then process_table_date today uid t s
  else if (getSession s uid).st == ConvState.waitTableGuests then process_table_guests uid t s
  else if (getSession s uid).st == ConvState.waitContact then process_contact_manual admins nowTs nowIso uid fullName t s
  else if t == "⭐️ Оставить отзыв" then start_review uid s
  else if (getSession s uid).st == ConvState.waitReviewRating && reviewRatingMatches t then process_review_rating uid t s
  else if (getSession s uid).st == ConvState.waitReviewText then process_review_text admins nowTs nowIso uid fullName (some t) s
  else if t == "📊 Статистика" then show_stats admins uid s
  else if t == "📋 Список бронирований" then list_bookings admins uid s
  else if t == "❌ Отменить бронирование" then cancel_booking_start admins uid s
  else if t == "✏️ Изменить кол-во столиков" then change_tables_start admins uid s
  else if (getSession s uid).st == ConvState.waitTablesCount then process_tables_count uid t s
  else if (getSession s uid).st == ConvState.waitAdminComment then process_admin_comment uid (some t) s
  else (s, [])

/-- Dispatch of a structured contact payload, which carries no text: the
text filters all fail; in the contact state the contact handler runs; a
state handler that dereferences the missing text raises and its except
handler resets the session; the review-text and admin-comment handlers run
with an absent text; elsewhere nothing matches. -/
def handleContactMsg (admins : List Int) (nowTs nowIso : String)
    (uid : Int) (fullName : String) (phone : String) (s : GState) : GState × List Out :=
  match (getSession s uid).st with
  | ConvState.idle => (s, [])
  | ConvState.waitContact => process_contact admins nowTs nowIso uid fullName phone s
  | ConvState.waitReviewRating => (s, [])
  | ConvState.waitReviewText => process_review_text admins nowTs nowIso uid fullName none s
  | ConvState.waitAdminComment => process_admin_comment uid none s
  | _ => (clearSession s uid, [])

def handleMessage (admins : List Int) (nowTs nowIso : String) (today : Nat)
    (uid : Int) (fullName : String) (inb : Inbound) (s : GState) : GState × List Out :=
  match inb with
  | Inbound.contact phone => handleContactMsg admins nowTs nowIso uid fullName phone s
  | Inbound.text t => handleText admins nowTs nowIso today uid fullName t s

/-- The callback dispatcher: the admin-check middleware answers a generic
access-denied text for a non-administrator and never runs the handler;
otherwise the decision token routes by prefix to confirm, reject, cancel or
info, the target booking id being the token segment after the underscore. -/
def handleCallback (admins : List Int) (uid : Int) (d : String) (s : GState) :
    GState × List Out :=
  if !admins.contains uid then (s, [Out.cbAnswer "⛔ Доступ запрещен!"])
  else if leadsWith "confirm_".toList d.toList then process_confirm ((splitOnChar '_' d).getD 1 "") s
  else if leadsWith "reject_".toList d.toList then process_reject uid ((splitOnChar '_' d).getD 1 "") s
  else if leadsWith "cancel_".toList d.toList then process_cancel uid ((splitOnChar '_' d).getD 1 "") s
  else if leadsWith "info_".toList d.toList then show_booking_info ((splitOnChar '_' d).getD 1 "") s
  else (s, [])

/-- One system step: an inbound message or callback processed against the
current state, with the time inputs chosen externally. -/
inductive Step (admins : List Int) : GState → GState → Prop
  | msg (nowTs nowIso : String) (today : Nat) (uid : Int) (fullName : String)
      (inb : Inbound) (s : GState) :
      Step admins s (handleMessage admins nowTs nowIso today uid fullName inb s).1
  | cb (uid : Int) (d : String) (s : GState) :
      Step admins s (handleCallback admins uid d s).1

/-- Reachability from a state through any sequence of steps. -/
def Reachable (admins : List Int) : GState → GState → Prop :=
  Relation.ReflTransGen (Step admins)

/-- One system step whose time-derived booking id is fresh: the id derived
from the instant of a message step does not collide with a stored booking
id (the collision-free regime of the id scheme). -/
inductive FreshStep (admins : List Int) : GState → GState → Prop
  | msg (nowTs nowIso : String) (today : Nat) (uid : Int) (fullName : String)
      (inb : Inbound) (s : GState)
      (hfresh : deriveId nowTs ∉ bookingIds s.bookings) :
      FreshStep admins s (handleMessage admins nowTs nowIso today uid fullName inb s).1
  | cb (uid : Int) (d : String) (s : GState) :
      FreshStep admins s (handleCallback admins uid d s).1

/-- Reachability through collision-free steps. -/
def ReachableFresh (admins : List Int) : GState → GState → Prop :=
  Relation.ReflTransGen (FreshStep admins)

/-- The table-ledger invariant of the spec: available stays within the total
and the committed count (total minus available) equals the number of
confirmed table bookings. -/
def LedgerInv (s : GState) : Prop :=
  0 ≤ s.avail ∧ s.avail ≤ s.total ∧ s.total - s.avail = (confirmedTables s.bookings : Int)

/-- Contribution of one booking to the confirmed-table count. -/
def tcount (b : Booking) : Nat :=
  if b.btype == "table" && b.status == "confirmed" then 1 else 0

/-- A stored booking has one of the three lifecycle statuses and one of the
two resource types. -/
def WFBooking (b : Booking) : Prop :=
  (b.status = "pending" ∨ b.status = "confirmed" ∨ b.status = "rejected") ∧
  (b.btype = "cottage" ∨ b.btype = "table")

/-- A session is consistent with the booking store: in the admin-comment
state its recorded booking id names a stored booking that is no longer
pending, and a recorded draft type is cottage or table. -/
def SessOK (bk : List (String × Booking)) (sess : Session) : Prop :=
  (sess.st = ConvState.waitAdminComment → ∀ bid, sess.data.booking_id = some bid →
    ∃ b, lookupBk bk bid = some b ∧ b.status ≠ "pending") ∧
  (∀ ty, sess.data.booking_type = some ty → ty = "cottage" ∨ ty = "table")

/-- The inductive invariant: the ledger invariant, well-formed bookings,
distinct booking keys, and consistent sessions. -/
def Inv (s : GState) : Prop :=
  LedgerInv s ∧
  (∀ p ∈ s.bookings, WFBooking p.2) ∧
  (bookingIds s.bookings).Nodup ∧
  (∀ q ∈ s.sessions, SessOK s.bookings q.2)

/-- Statuses only evolve away from pending between two stores. -/
def StatusMono (bk bk' : List (String × Booking)) : Prop :=
  ∀ k b, lookupBk bk k = some b → b.status ≠ "pending" →
    ∃ b', lookupBk bk' k = some b' ∧ b'.status ≠ "pending"

theorem bookings_setSession (s : GState) (uid : Int) (sess : Session) :
    (setSession s uid sess).bookings = s.bookings := rfl

theorem avail_setSession (s : GState) (uid : Int) (sess : Session) :
    (setSession s uid sess).avail = s.avail := rfl

theorem total_setSession (s : GState) (uid : Int) (sess : Session) :
    (setSession s uid sess).total = s.total := rfl

theorem ledgerInv_setSession (s : GState) (uid : Int) (sess : Session) :
    LedgerInv (setSession s uid sess) ↔ LedgerInv s := Iff.rfl

theorem lookupBk_nil (bid : String) : lookupBk [] bid = none := rfl

theorem lookupBk_cons_eq {p : String × Booking} {bid : String}
    (db : List (String × Booking)) (hp : p.1 = bid) :
    lookupBk (p :: db) bid = some p.2 := by
  rw [lookupBk, List.find?_cons_of_pos _ (by simpa using hp)]
  rfl

theorem lookupBk_cons_ne {p : String × Booking} {bid : String}
    (db : List (String × Booking)) (hp : ¬p.1 = bid) :
    lookupBk (p :: db) bid = lookupBk db bid := by
  rw [lookupBk, List.find?_cons_of_neg _ (by simpa using hp)]
  rfl

theorem updateStatusBk_cons_eq {p : String × Booking} {bid : String}
    (db : List (String × Booking)) (st : String) (hp : p.1 = bid) :
    updateStatusBk (p :: db) bid st =
      (p.1, { p.2 with status := st }) :: updateStatusBk db bid st := by
  simp only [updateStatusBk, List.map]
  rw [if_pos (by simpa using hp)]

theorem updateStatusBk_cons_ne {p : String × Booking} {bid : String}
    (db : List (String × Booking)) (st : String) (hp : ¬p.1 = bid) :
    updateStatusBk (p :: db) bid st = p :: updateStatusBk db bid st := by
  simp only [updateStatusBk, List.map]
  rw [if_neg (by simpa using hp)]

theorem lookupBk_mem {db : List (String × Booking)} {bid : String} {b : Booking}
    (h : lookupBk db bid = some b) : (bid, b) ∈ db := by
  induction db with
  | nil => simp [lookupBk_nil] at h
  | cons p rest ih =>
    by_cases hp : p.1 = bid
    · rw [lookupBk_cons_eq _ hp] at h
      injection h with h2
      have : p = (bid, b) := Prod.ext hp h2
      rw [← this]
      exact List.mem_cons_self p rest
    · rw [lookupBk_cons_ne _ hp] at h
      exact List.mem_cons_of_mem _ (ih h)

theorem lookupBk_updateStatusBk_self {db : List (String × Booking)} {bid : String}
    {b : Booking} (st : String) (h : lookupBk db bid = some b) :
    lookupBk (updateStatusBk db bid st) bid = some { b with status := st } := by
  induction db with
  | nil => simp [lookupBk_nil] at h
  | cons p rest ih =>
    by_cases hp : p.1 = bid
    · rw [lookupBk_cons_eq _ hp] at h
      injection h with h2
      rw [updateStatusBk_cons_eq _ _ hp,
        lookupBk_cons_eq _ (show (p.1, { p.2 with status := st }).1 = bid from hp), h2]
    · rw [lookupBk_cons_ne _ hp] at h
      rw [updateStatusBk_cons_ne _ _ hp, lookupBk_cons_ne _ hp]
      exact ih h

theorem lookupBk_updateStatusBk_ne {db : List (String × Booking)} {bid q : String}
    (st : String) (h : q ≠ bid) :
    lookupBk (updateStatusBk db bid st) q = lookupBk db q := by
  induction db with
  | nil => simp [lookupBk_nil, updateStatusBk]
  | cons p rest ih =>
    by_cases hp : p.1 = bid
    · have hq : ¬p.1 = q := fun hc => h (by rw [← hc, hp])
      rw [updateStatusBk_cons_eq _ _ hp,
        lookupBk_cons_ne _ (show ¬(p.1, { p.2 with status := st }).1 = q from hq),
        lookupBk_cons_ne _ hq]
      exact ih
    · rw [updateStatusBk_cons_ne _ _ hp]
      by_cases hq : p.1 = q
      · rw [lookupBk_cons_eq _ hq, lookupBk_cons_eq _ hq]
      · rw [lookupBk_cons_ne _ hq, lookupBk_cons_ne _ hq]
        exact ih

theorem bookingIds_updateStatusBk (db : List (String × Booking)) (bid st : String) :
    bookingIds (updateStatusBk db bid st) = bookingIds db := by
  induction db with
  | nil => rfl
  | cons p rest ih =>
    by_cases hp : p.1 = bid
    · rw [updateStatusBk_cons_eq _ _ hp]
      simp only [bookingIds, List.map] at *
      rw [ih]
    · rw [updateStatusBk_cons_ne _ _ hp]
      simp only [bookingIds, List.map] at *
      rw [ih]

theorem updateStatusBk_not_mem {db : List (String × Booking)} {bid : String} (st : String)
    (h : bid ∉ bookingIds db) : updateStatusBk db bid st = db := by
  induction db with
  | nil => rfl
  | cons p rest ih =>
    simp only [bookingIds, List.map, List.mem_cons, not_or] at h
    rw [updateStatusBk_cons_ne _ _ (fun hq : p.1 = bid => h.1 hq.symm),
      ih (by simpa [bookingIds] using h.2)]

theorem insertBk_fresh {db : List (String × Booking)} {bid : String} (b : Booking)
    (h : bid ∉ bookingIds db) : insertBk db bid b = (bid, b) :: db := by
  unfold insertBk
  congr 1
  induction db with
  | nil => rfl
  | cons p rest ih =>
    simp only [bookingIds, List.map, List.mem_cons, not_or] at h
    have hne : p.1 ≠ bid := fun hq => h.1 hq.symm
    simp only [List.filter]
    rw [show (p.1 != bid) = true by simp [hne]]
    rw [ih (by simpa [bookingIds] using h.2)]

theorem confirmedTables_cons (p : String × Booking) (db : List (String × Booking)) :
    confirmedTables (p :: db) = tcount p.2 + confirmedTables db := by
  simp only [confirmedTables, tcount, List.filter]
  by_cases h : (p.2.btype == "table" && p.2.status == "confirmed") = true
  · simp [h, Nat.add_comm]
  · simp [h]

theorem confirmedTables_updateStatusBk {db : List (String × Booking)} {bid : String}
    {b : Booking} (st : String) (hnd : (bookingIds db).Nodup)
    (h : lookupBk db bid = some b) :
    confirmedTables (updateStatusBk db bid st) + tcount b =
      confirmedTables db + tcount { b with status := st } := by
  induction db with
  | nil => simp [lookupBk_nil] at h
  | cons p rest ih =>
    simp only [bookingIds, List.map, List.nodup_cons] at hnd
    by_cases hp : p.1 = bid
    · rw [lookupBk_cons_eq _ hp] at h
      injection h with h2
      have hrest : updateStatusBk rest bid st = rest := by
        apply updateStatusBk_not_mem
        intro hm
        exact hnd.1 (by simpa [bookingIds, hp] using hm)
      rw [updateStatusBk_cons_eq _ _ hp, hrest, confirmedTables_cons, confirmedTables_cons]
      simp only
      rw [h2]
      ring
    · rw [lookupBk_cons_ne _ hp] at h
      rw [updateStatusBk_cons_ne _ _ hp, confirmedTables_cons, confirmedTables_cons]
      have := ih (by simpa [bookingIds] using hnd.2) h
      omega

theorem SessOK_default (bk : List (String × Booking)) : SessOK bk {} := by
  constructor
  · intro h
    simp [Session.st] at h
  · intro ty h
    simp [Session.data, SessData.booking_type] at h

theorem SessOK_mono {bk bk' : List (String × Booking)} {sess : Session}
    (hm : StatusMono bk bk') (h : SessOK bk sess) : SessOK bk' sess := by
  refine ⟨fun hst bid hbid => ?_, h.2⟩
  obtain ⟨b, hb, hbs⟩ := h.1 hst bid hbid
  obtain ⟨b', hb', hbs'⟩ := hm bid b hb hbs
  exact ⟨b', hb', hbs'⟩

theorem StatusMono_refl (bk : List (String × Booking)) : StatusMono bk bk :=
  fun _ b h hs => ⟨b, h, hs⟩

theorem StatusMono_updateStatusBk (bk : List (String × Booking)) (bid st : String)
    (hst : st ≠ "pending") : StatusMono bk (updateStatusBk bk bid st) := by
  intro k b h hs
  by_cases hk : k = bid
  · subst hk
    exact ⟨{ b with status := st }, lookupBk_updateStatusBk_self st h, hst⟩
  · rw [lookupBk_updateStatusBk_ne st hk]
    exact ⟨b, h, hs⟩

theorem mem_bookingIds_of_lookup {db : List (String × Booking)} {k : String} {b : Booking}
    (h : lookupBk db k = some b) : k ∈ bookingIds db := by
  have := lookupBk_mem h
  simp only [bookingIds, List.mem_map]
  exact ⟨(k, b), this, rfl⟩

theorem StatusMono_consFresh (bk : List (String × Booking)) (bid : String) (b : Booking)
    (hfresh : bid ∉ bookingIds bk) : StatusMono bk ((bid, b) :: bk) := by
  intro k b0 h hs
  have hk : ¬bid = k := fun hc => hfresh (hc ▸ mem_bookingIds_of_lookup h)
  rw [lookupBk_cons_ne _ (show ¬((bid, b)).1 = k from hk)]
  exact ⟨b0, h, hs⟩

theorem mem_setSession {s : GState} {uid : Int} {sess : Session} {q : Int × Session}
    (h : q ∈ (setSession s uid sess).sessions) : q = (uid, sess) ∨ q ∈ s.sessions := by
  simp only [setSession, List.mem_cons] at h
  rcases h with h | h
  · exact Or.inl h
  · exact Or.inr (List.mem_of_mem_filter h)

theorem inv_setSession {s : GState} {uid : Int} {sess : Session}
    (hinv : Inv s) (hok : SessOK s.bookings sess) : Inv (setSession s uid sess) := by
  obtain ⟨hl, hwf, hnd, hsess⟩ := hinv
  refine ⟨hl, hwf, hnd, fun q hq => ?_⟩
  rcases mem_setSession hq with h | h
  · rw [h]
    exact hok
  · exact hsess q h

theorem inv_clearSession {s : GState} (uid : Int) (hinv : Inv s) :
    Inv (clearSession s uid) :=
  inv_setSession hinv (SessOK_default s.bookings)

theorem SessOK_getSession {s : GState} (uid : Int) (hinv : Inv s) :
    SessOK s.bookings (getSession s uid) := by
  unfold getSession
  cases hfind : s.sessions.find? (fun p => p.1 == uid) with
  | none => exact SessOK_default s.bookings
  | some q =>
    exact hinv.2.2.2 q (List.mem_of_find?_eq_some hfind)

theorem SessOK_not_comment {bk : List (String × Booking)} {sess : Session}
    (hst : sess.st ≠ ConvState.waitAdminComment)
    (h2 : ∀ ty, sess.data.booking_type = some ty → ty = "cottage" ∨ ty = "table") :
    SessOK bk sess :=
  ⟨fun h => absurd h hst, h2⟩

theorem inv_cmd_start (admins : List Int) (uid : Int) {s : GState} (h : Inv s) :
    Inv (cmd_start admins uid s).1 := by
  unfold cmd_start
  split <;> exact h

theorem inv_donate_handler {s : GState} (h : Inv s) : Inv (donate_handler s).1 := h

theorem inv_book_cottage_start (uid : Int) {s : GState} (h : Inv s) :
    Inv (book_cottage_start uid s).1 := by
  unfold book_cottage_start
  exact inv_setSession h
    (SessOK_not_comment (fun hc => ConvState.noConfusion hc) (SessOK_getSession uid h).2)

theorem inv_process_cottage_date (today : Nat) (uid : Int) (t : String) {s : GState}
    (h : Inv s) : Inv (process_cottage_date today uid t s).1 := by
  unfold process_cottage_date
  split
  · exact inv_clearSession uid h
  · split
    · exact h
    · split
      · exact h
      · split
        · exact h
        · split
          · exact h
          · exact inv_setSession h
              (SessOK_not_comment (fun hc => ConvState.noConfusion hc) (SessOK_getSession uid h).2)

theorem inv_process_cottage_guests (uid : Int) (t : String) {s : GState}
    (h : Inv s) : Inv (process_cottage_guests uid t s).1 := by
  unfold process_cottage_guests
  dsimp only
  split
  · exact inv_clearSession uid h
  · split
    · exact h
    · split
      · exact h
      · refine inv_setSession h (SessOK_not_comment (fun hc => ConvState.noConfusion hc) ?_)
        intro ty hty
        simp only [SessData.booking_type] at hty
        injection hty with hty
        exact Or.inl hty.symm

theorem inv_book_table_start (uid : Int) {s : GState} (h : Inv s) :
    Inv (book_table_start uid s).1 := by
  unfold book_table_start
  split
  · exact h
  · exact inv_setSession h
      (SessOK_not_comment (fun hc => ConvState.noConfusion hc) (SessOK_getSession uid h).2)

theorem inv_process_table_date (today : Nat) (uid : Int) (t : String) {s : GState}
    (h : Inv s) : Inv (process_table_date today uid t s).1 := by
  unfold process_table_date
  split
  · exact inv_clearSession uid h
  · split
    · exact h
    · split
      · exact h
      · split
        · exact h
        · exact inv_setSession h
            (SessOK_not_comment (fun hc => ConvState.noConfusion hc) (SessOK_getSession uid h).2)

theorem inv_process_table_guests (uid : Int) (t : String) {s : GState}
    (h : Inv s) : Inv (process_table_guests uid t s).1 := by
  unfold process_table_guests
  dsimp only
  split
  · exact inv_clearSession uid h
  · split
    · exact h
    · split
      · exact h
      · refine inv_setSession h (SessOK_not_comment (fun hc => ConvState.noConfusion hc) ?_)
        intro ty hty
        simp only [SessData.booking_type] at hty
        injection hty with hty
        exact Or.inr hty.symm

theorem inv_start_review (uid : Int) {s : GState} (h : Inv s) :
    Inv (start_review uid s).1 := by
  unfold start_review
  split
  · exact inv_setSession h
      (SessOK_not_comment (fun hc => ConvState.noConfusion hc) (SessOK_getSession uid h).2)
  · exact h

theorem inv_process_review_rating (uid : Int) (t : String) {s : GState}
    (h : Inv s) : Inv (process_review_rating uid t s).1 := by
  unfold process_review_rating
  dsimp only
  split
  · exact inv_setSession h
      (SessOK_not_comment (fun hc => ConvState.noConfusion hc) (SessOK_getSession uid h).2)
  · exact inv_clearSession uid h

theorem inv_reviews_update {s : GState} (r : List (String × Review)) (h : Inv s) :
    Inv { s with reviews := r } := by
  obtain ⟨hl, hwf, hnd, hsess⟩ := h
  exact ⟨hl, hwf, hnd, hsess⟩

theorem inv_process_review_text (admins : List Int) (nowTs nowIso : String) (uid : Int)
    (fullName : String) (t? : Option String) {s : GState} (h : Inv s) :
    Inv (process_review_text admins nowTs nowIso uid fullName t? s).1 := by
  unfold process_review_text
  split
  · exact inv_clearSession uid h
  · dsimp only
    rcases hr : (getSession s uid).data.rating with _ | rating
    · simp only [hr]
      exact inv_clearSession uid h
    · simp only [hr]
      exact inv_clearSession uid (inv_reviews_update _ h)

theorem inv_show_stats (admins : List Int) (uid : Int) {s : GState} (h : Inv s) :
    Inv (show_stats admins uid s).1 := by
  unfold show_stats
  split <;> exact h

theorem inv_list_bookings (admins : List Int) (uid : Int) {s : GState} (h : Inv s) :
    Inv (list_bookings admins uid s).1 := by
  unfold list_bookings
  split <;> exact h

theorem inv_cancel_booking_start (admins : List Int) (uid : Int) {s : GState} (h : Inv s) :
    Inv (cancel_booking_start admins uid s).1 := by
  unfold cancel_booking_start
  split
  · exact h
  · dsimp only
    split <;> exact h

theorem inv_change_tables_start (admins : List Int) (uid : Int) {s : GState} (h : Inv s) :
    Inv (change_tables_start admins uid s).1 := by
  unfold change_tables_start
  split
  · exact h
  · exact inv_setSession h
      (SessOK_not_comment (fun hc => ConvState.noConfusion hc) (SessOK_getSession uid h).2)

theorem inv_show_booking_info (bid : String) {s : GState} (h : Inv s) :
    Inv (show_booking_info bid s).1 := by
  unfold show_booking_info
  split <;> exact h

theorem wf_updateStatusBk {db : List (String × Booking)} {bid : String} {st : String}
    (hstok : st = "pending" ∨ st = "confirmed" ∨ st = "rejected")
    (hwf : ∀ p ∈ db, WFBooking p.2) :
    ∀ p ∈ updateStatusBk db bid st, WFBooking p.2 := by
  intro p hp
  simp only [updateStatusBk, List.mem_map] at hp
  obtain ⟨q, hq, hqe⟩ := hp
  by_cases hk : (q.1 == bid) = true
  · rw [if_pos hk] at hqe
    rw [← hqe]
    exact ⟨hstok, (hwf q hq).2⟩
  · rw [if_neg hk] at hqe
    rw [← hqe]
    exact hwf q hq

theorem inv_insert_pending {s : GState} {bid : String} {bk : Booking}
    (h : Inv s) (hfresh : bid ∉ bookingIds s.bookings)
    (hst : bk.status = "pending")
    (hty : bk.btype = "cottage" ∨ bk.btype = "table") :
    Inv { s with bookings := insertBk s.bookings bid bk } := by
  obtain ⟨⟨h0, h1, h2⟩, hwf, hnd, hsess⟩ := h
  have hi := insertBk_fresh bk hfresh
  refine ⟨⟨h0, h1, ?_⟩, ?_, ?_, ?_⟩
  · show s.total - s.avail = _
    rw [show ({ s with bookings := insertBk s.bookings bid bk } : GState).bookings =
          (bid, bk) :: s.bookings from hi]
    rw [confirmedTables_cons]
    have htc : tcount ((bid, bk)).2 = 0 := by simp [tcount, hst]
    rw [htc]
    simpa using h2
  · show ∀ p ∈ insertBk s.bookings bid bk, WFBooking p.2
    rw [hi]
    intro p hp
    rcases List.mem_cons.mp hp with hp | hp
    · rw [hp]
      exact ⟨Or.inl hst, hty⟩
    · exact hwf p hp
  · show (bookingIds (insertBk s.bookings bid bk)).Nodup
    rw [hi]
    simp only [bookingIds, List.map]
    exact List.nodup_cons.mpr ⟨by simpa [bookingIds] using hfresh, hnd⟩
  · show ∀ q ∈ s.sessions, SessOK (insertBk s.bookings bid bk) q.2
    rw [hi]
    intro q hq
    exact SessOK_mono (StatusMono_consFresh _ _ _ hfresh) (hsess q hq)

theorem inv_saveBooking (admins : List Int) (nowTs nowIso : String) (uid : Int)
    (fullName phone : String) {s : GState} (h : Inv s)
    (hfresh : deriveId nowTs ∉ bookingIds s.bookings) :
    Inv (saveBooking admins nowTs nowIso uid fullName phone s).1 := by
  unfold saveBooking
  dsimp only
  rcases hbd : (getSession s uid).data.booking_date with _ | bdate
  · exact inv_clearSession uid h
  · rcases hbt : (getSession s uid).data.booking_type with _ | btype
    · exact inv_clearSession uid h
    · rcases hbg : (getSession s uid).data.guests with _ | guests
      · exact inv_clearSession uid h
      · dsimp only
        split
        · exact inv_clearSession uid h
        · apply inv_clearSession
          exact inv_insert_pending h hfresh rfl ((SessOK_getSession uid h).2 btype hbt)

theorem inv_process_contact (admins : List Int) (nowTs nowIso : String) (uid : Int)
    (fullName phone : String) {s : GState} (h : Inv s)
    (hfresh : deriveId nowTs ∉ bookingIds s.bookings) :
    Inv (process_contact admins nowTs nowIso uid fullName phone s).1 :=
  inv_saveBooking admins nowTs nowIso uid fullName phone h hfresh

theorem inv_process_contact_manual (admins : List Int) (nowTs nowIso : String) (uid : Int)
    (fullName t : String) {s : GState} (h : Inv s)
    (hfresh : deriveId nowTs ∉ bookingIds s.bookings) :
    Inv (process_contact_manual admins nowTs nowIso uid fullName t s).1 := by
  unfold process_contact_manual
  split
  · exact inv_clearSession uid h
  · split
    · exact h
    · dsimp only
      split
      · exact h
      · exact inv_saveBooking admins nowTs nowIso uid fullName _ h hfresh

theorem inv_process_tables_count (uid : Int) (t : String) {s : GState} (h : Inv s) :
    Inv (process_tables_count uid t s).1 := by
  unfold process_tables_count
  dsimp only
  split
  · exact h
  · split
    · exact h
    · split
      · exact h
      · rename_i hn1 hn2
        apply inv_clearSession
        obtain ⟨⟨h0, h1, h2⟩, hwf, hnd, hsess⟩ := h
        refine ⟨⟨?_, ?_, ?_⟩, hwf, hnd, hsess⟩
        · show (0 : Int) ≤ (pyToNat t : Int) - (s.total - s.avail)
          omega
        · show (pyToNat t : Int) - (s.total - s.avail) ≤ (pyToNat t : Int)
          omega
        · show (pyToNat t : Int) - ((pyToNat t : Int) - (s.total - s.avail)) =
            (confirmedTables s.bookings : Int)
          omega

theorem inv_process_confirm (bid : String) {s : GState} (h : Inv s) :
    Inv (process_confirm bid s).1 := by
  unfold process_confirm
  rcases hl : lookupBk s.bookings bid with _ | b
  · exact h
  · dsimp only
    split
    · exact h
    · split
      · exact h
      · rename_i hpend hguard
        obtain ⟨⟨h0, h1, h2⟩, hwf, hnd, hsess⟩ := h
        have hbs : b.status = "pending" := not_not.mp hpend
        have hwfb := hwf (bid, b) (lookupBk_mem hl)
        have hcnt := confirmedTables_updateStatusBk "confirmed" hnd hl
        have htb : tcount b = 0 := by simp [tcount, hbs]
        rw [htb] at hcnt
        refine ⟨⟨?_, ?_, ?_⟩, ?_, ?_, ?_⟩
        · show (0 : Int) ≤ (if (b.btype == "table") = true then s.avail - 1 else s.avail)
          by_cases hbt : b.btype = "table"
          · have : ¬s.avail ≤ 0 := fun hle => hguard ⟨hbt, hle⟩
            simp [hbt]
            omega
          · simp [hbt]
            omega
        · show (if (b.btype == "table") = true then s.avail - 1 else s.avail) ≤ s.total
          by_cases hbt : b.btype = "table" <;> simp [hbt] <;> omega
        · show s.total - (if (b.btype == "table") = true then s.avail - 1 else s.avail) =
            (confirmedTables (updateStatusBk s.bookings bid "confirmed") : Int)
          by_cases hbt : b.btype = "table"
          · have htb' : tcount { b with status := "confirmed" } = 1 := by
              simp [tcount, hbt]
            rw [htb'] at hcnt
            simp only [hbt]
            simp
            omega
          · have htb' : tcount { b with status := "confirmed" } = 0 := by
              simp [tcount, hbt]
            rw [htb'] at hcnt
            simp only [show (b.btype == "table") = false by simp [hbt]]
            simp
            omega
        · exact wf_updateStatusBk (Or.inr (Or.inl rfl)) hwf
        · show (bookingIds (updateStatusBk s.bookings bid "confirmed")).Nodup
          rw [bookingIds_updateStatusBk]
          exact hnd
        · intro q hq
          exact SessOK_mono
            (StatusMono_updateStatusBk s.bookings bid "confirmed" (by simp)) (hsess q hq)

theorem inv_process_reject (uid : Int) (bid : String) {s : GState} (h : Inv s) :
    Inv (process_reject uid bid s).1 := by
  unfold process_reject
  rcases hl : lookupBk s.bookings bid with _ | b
  · exact h
  · dsimp only
    split
    · exact h
    · rename_i hpend
      have hbs : b.status = "pending" := not_not.mp hpend
      obtain ⟨⟨h0, h1, h2⟩, hwf, hnd, hsess⟩ := h
      have hcnt := confirmedTables_updateStatusBk "rejected" hnd hl
      have htb : tcount b = 0 := by simp [tcount, hbs]
      have htb' : tcount { b with status := "rejected" } = 0 := by simp [tcount]
      rw [htb, htb'] at hcnt
      have hinv1 : Inv { s with bookings := updateStatusBk s.bookings bid "rejected" } := by
        refine ⟨⟨h0, h1, ?_⟩, ?_, ?_, ?_⟩
        · show s.total - s.avail = (confirmedTables (updateStatusBk s.bookings bid "rejected") : Int)
          omega
        · exact wf_updateStatusBk (Or.inr (Or.inr rfl)) hwf
        · show (bookingIds (updateStatusBk s.bookings bid "rejected")).Nodup
          rw [bookingIds_updateStatusBk]
          exact hnd
        · intro q hq
          exact SessOK_mono
            (StatusMono_updateStatusBk s.bookings bid "rejected" (by simp)) (hsess q hq)
      apply inv_setSession hinv1
      constructor
      · intro _ bid' hbid'
        simp only [SessData.booking_id] at hbid'
        injection hbid' with hbid'
        refine ⟨{ b with status := "rejected" }, ?_, by simp⟩
        rw [← hbid']
        exact lookupBk_updateStatusBk_self "rejected" hl
      · exact (SessOK_getSession uid hinv1).2

theorem inv_process_cancel (uid : Int) (bid : String) {s : GState} (h : Inv s) :
    Inv (process_cancel uid bid s).1 := by
  unfold process_cancel
  rcases hl : lookupBk s.bookings bid with _ | b
  · exact h
  · dsimp only
    split
    · exact h
    · rename_i hconf
      have hbs : b.status = "confirmed" := not_not.mp hconf
      apply inv_setSession h
      constructor
      · intro _ bid' hbid'
        simp only [SessData.booking_id] at hbid'
        injection hbid' with hbid'
        refine ⟨b, ?_, by rw [hbs]; simp⟩
        rw [← hbid']
        exact hl
      · exact (SessOK_getSession uid h).2

theorem inv_process_admin_comment (uid : Int) (t? : Option String) {s : GState}
    (h : Inv s) (hst : (getSession s uid).st = ConvState.waitAdminComment) :
    Inv (process_admin_comment uid t? s).1 := by
  unfold process_admin_comment
  rcases hbid : (getSession s uid).data.booking_id with _ | bid
  · exact inv_clearSession uid h
  · dsimp only
    rcases hl : lookupBk s.bookings bid with _ | b
    · exact inv_clearSession uid h
    · dsimp only
      split
      · rename_i hrej
        apply inv_clearSession
        obtain ⟨b0, hb0, hb0s⟩ := (SessOK_getSession uid h).1 hst bid hbid
        have hbpend : b.status ≠ "pending" := by
          rw [hl] at hb0
          injection hb0 with e
          rw [e]
          exact hb0s
        obtain ⟨⟨h0, h1, h2⟩, hwf, hnd, hsess⟩ := h
        have hwfb := hwf (bid, b) (lookupBk_mem hl)
        have hconf : b.status = "confirmed" := by
          rcases hwfb.1 with hc | hc | hc
          · exact absurd hc hbpend
          · exact hc
          · exact absurd hc hrej
        have hcnt := confirmedTables_updateStatusBk "rejected" hnd hl
        have htb' : tcount { b with status := "rejected" } = 0 := by simp [tcount]
        rw [htb'] at hcnt
        refine ⟨⟨?_, ?_, ?_⟩, ?_, ?_, ?_⟩
        · show (0 : Int) ≤ (if (b.btype == "table") = true then s.avail + 1 else s.avail)
          by_cases hbt : b.btype = "table" <;> simp [hbt] <;> omega
        · show (if (b.btype == "table") = true then s.avail + 1 else s.avail) ≤ s.total
          by_cases hbt : b.btype = "table"
          · have htb : tcount b = 1 := by simp [tcount, hbt, hconf]
            rw [htb] at hcnt
            simp [hbt]
            omega
          · simp [hbt]
            omega
        · show s.total - (if (b.btype == "table") = true then s.avail + 1 else s.avail) =
            (confirmedTables (updateStatusBk s.bookings bid "rejected") : Int)
          by_cases hbt : b.btype = "table"
          · have htb : tcount b = 1 := by simp [tcount, hbt, hconf]
            rw [htb] at hcnt
            simp only [hbt]
            simp
            omega
          · have htb : tcount b = 0 := by simp [tcount, hbt]
            rw [htb] at hcnt
            simp only [show (b.btype == "table") = false by simp [hbt]]
            simp
            omega
        · exact wf_updateStatusBk (Or.inr (Or.inr rfl)) hwf
        · show (bookingIds (updateStatusBk s.bookings bid "rejected")).Nodup
          rw [bookingIds_updateStatusBk]
          exact hnd
        · intro q hq
          exact SessOK_mono
            (StatusMono_updateStatusBk s.bookings bid "rejected" (by simp)) (hsess q hq)
      · exact inv_clearSession uid h

theorem inv_handleContactMsg (admins : List Int) (nowTs nowIso : String)
    (uid : Int) (fullName phone : String) {s : GState} (h : Inv s)
    (hfresh : deriveId nowTs ∉ bookingIds s.bookings) :
    Inv (handleContactMsg admins nowTs nowIso uid fullName phone s).1 := by
  unfold handleContactMsg
  cases hstate : (getSession s uid).st
  case idle => exact h
  case waitContact =>
    exact inv_process_contact admins nowTs nowIso uid fullName phone h hfresh
  case waitReviewRating => exact h
  case waitReviewText =>
    exact inv_process_review_text admins nowTs nowIso uid fullName none h
  case waitAdminComment => exact inv_process_admin_comment uid none h hstate
  case waitCottageDate => exact inv_clearSession uid h
  case waitCottageGuests => exact inv_clearSession uid h
  case waitTableDate => exact inv_clearSession uid h
  case waitTableGuests => exact inv_clearSession uid h
  case waitTablesCount => exact inv_clearSession uid h

theorem inv_handleText (admins : List Int) (nowTs nowIso : String) (today : Nat)
    (uid : Int) (fullName t : String) {s : GState} (h : Inv s)
    (hfresh : deriveId nowTs ∉ bookingIds s.bookings) :
    Inv (handleText admins nowTs nowIso today uid fullName t s).1 := by
  unfold handleText
  by_cases h1 : isStartCommand t = true
  · rw [if_pos h1]
    exact inv_cmd_start admins uid h
  rw [if_neg h1]
  by_cases h2 : (t == "💸 Оставить чаевые") = true
  · rw [if_pos h2]
    exact inv_donate_handler h
  rw [if_neg h2]
  by_cases h3 : (t == "🏠 Забронировать коттедж") = true
  · rw [if_pos h3]
    exact inv_book_cottage_start uid h
  rw [if_neg h3]
  by_cases h4 : ((getSession s uid).st == ConvState.waitCottageDate) = true
  · rw [if_pos h4]
    exact inv_process_cottage_date today uid t h
  rw [if_neg h4]
  by_cases h5 : ((getSession s uid).st == ConvState.waitCottageGuests) = true
  · rw [if_pos h5]
    exact inv_process_cottage_guests uid t h
  rw [if_neg h5]
  by_cases h6 : (t == "🍾 Забронировать столик") = true
  · rw [if_pos h6]
    exact inv_book_table_start uid h
  rw [if_neg h6]
  by_cases h7 : ((getSession s uid).st == ConvState.waitTableDate) = true
  · rw [if_pos h7]
    exact inv_process_table_date today uid t h
  rw [if_neg h7]
  by_cases h8 : ((getSession s uid).st == ConvState.waitTableGuests) = true
  · rw [if_pos h8]
    exact inv_process_table_guests uid t h
  rw [if_neg h8]
  by_cases h9 : ((getSession s uid).st == ConvState.waitContact) = true
  · rw [if_pos h9]
    exact inv_process_contact_manual admins nowTs nowIso uid fullName t h hfresh
  rw [if_neg h9]
  by_cases h10 : (t == "⭐️ Оставить отзыв") = true
  · rw [if_pos h10]
    exact inv_start_review uid h
  rw [if_neg h10]
  by_cases h11 : ((getSession s uid).st == ConvState.waitReviewRating && reviewRatingMatches t) = true
  · rw [if_pos h11]
    exact inv_process_review_rating uid t h
  rw [if_neg h11]
  by_cases h12 : ((getSession s uid).st == ConvState.waitReviewText) = true
  · rw [if_pos h12]
    exact inv_process_review_text admins nowTs nowIso uid fullName (some t) h
  rw [if_neg h12]
  by_cases h13 : (t == "📊 Статистика") = true
  · rw [if_pos h13]
    exact inv_show_stats admins uid h
  rw [if_neg h13]
  by_cases h14 : (t == "📋 Список бронирований") = true
  · rw [if_pos h14]
    exact inv_list_bookings admins uid h
  rw [if_neg h14]
  by_cases h15 : (t == "❌ Отменить бронирование") = true
  · rw [if_pos h15]
    exact inv_cancel_booking_start admins uid h
  rw [if_neg h15]
  by_cases h16 : (t == "✏️ Изменить кол-во столиков") = true
  · rw [if_pos h16]
    exact inv_change_tables_start admins uid h
  rw [if_neg h16]
  by_cases h17 : ((getSession s uid).st == ConvState.waitTablesCount) = true
  · rw [if_pos h17]
    exact inv_process_tables_count uid t h
  rw [if_neg h17]
  by_cases h18 : ((getSession s uid).st == ConvState.waitAdminComment) = true
  · rw [if_pos h18]
    exact inv_process_admin_comment uid (some t) h (by simpa using h18)
  rw [if_neg h18]
  exact h

theorem inv_handleMessage (admins : List Int) (nowTs nowIso : String) (today : Nat)
    (uid : Int) (fullName : String) (inb : Inbound) {s : GState} (h : Inv s)
    (hfresh : deriveId nowTs ∉ bookingIds s.bookings) :
    Inv (handleMessage admins nowTs nowIso today uid fullName inb s).1 := by
  cases inb with
  | contact phone =>
    exact inv_handleContactMsg admins nowTs nowIso uid fullName phone h hfresh
  | text t =>
    exact inv_handleText admins nowTs nowIso today uid fullName t h hfresh

theorem inv_handleCallback (admins : List Int) (uid : Int) (d : String) {s : GState}
    (h : Inv s) : Inv (handleCallback admins uid d s).1 := by
  unfold handleCallback
  split
  · exact h
  · split
    · exact inv_process_confirm _ h
    · split
      · exact inv_process_reject uid _ h
      · split
        · exact inv_process_cancel uid _ h
        · split
          · exact inv_show_booking_info _ h
          · exact h

theorem inv_initState : Inv initState :=
  ⟨⟨by decide, by decide, by decide⟩, by simp [initState],
   by simp [initState, bookingIds], by simp [initState]⟩

theorem inv_fresh_step {admins : List Int} {s s' : GState} (h : Inv s)
    (hstep : FreshStep admins s s') : Inv s' := by
  cases hstep with
  | msg nowTs nowIso today uid fullName inb s hfresh =>
    exact inv_handleMessage admins nowTs nowIso today uid fullName inb h hfresh
  | cb uid d s => exact inv_handleCallback admins uid d h

theorem inv_reachableFresh {admins : List Int} {s : GState}
    (h : ReachableFresh admins initState s) : Inv s := by
  unfold ReachableFresh at h
  induction h with
  | refl => exact inv_initState
  | tail _ hstep ih => exact inv_fresh_step ih hstep

/-! Concrete example trace: user 5 books and has confirmed a table for
01.01.2030, then books the same table again at a creation instant 100
seconds later whose timestamp digits collide on the last eight characters,
so the derived id repeats and the second record overwrites the first. -/

def exAdmins : List Int := [1]

def exToday : Nat := dateOrdinal (1, 1, 2030)

def exIso : String := "2026-10-09T12:00:00"

def exUserStep (nowTs t : String) (s : GState) : GState :=
  (handleMessage exAdmins nowTs exIso exToday 5 "U" (Inbound.text t) s).1

def exS1 : GState := exUserStep "1760000000.123456" "🍾 Забронировать столик" initState

def exS2 : GState := exUserStep "1760000000.123456" "01.01.2030" exS1

def exS3 : GState := exUserStep "1760000000.123456" "4" exS2

def exS4 : GState := exUserStep "1760000000.123456" "+79991234567" exS3

def exS5 : GState := (handleCallback exAdmins 1 "confirm_00123456" exS4).1

def exS6 : GState := exUserStep "1760000100.123456" "🍾 Забронировать столик" exS5

def exS7 : GState := exUserStep "1760000100.123456" "01.01.2030" exS6

def exS8 : GState := exUserStep "1760000100.123456" "4" exS7

def exS9 : GState := exUserStep "1760000100.123456" "+79991234567" exS8

/-- C1 counterexample: a state reachable from the initial state through
ordinary message and callback steps in which the table-ledger invariant
fails — the second booking creation derives the already-used id 00123456
(timestamps 100 seconds apart share their last eight digit characters) and
overwrites the confirmed table booking, after which total minus available
is 1 while no confirmed table booking exists. -/
theorem C1_counterexample : Reachable exAdmins initState exS9 ∧ ¬LedgerInv exS9 := by
  constructor
  · have r1 : Reachable exAdmins initState exS1 :=
      Relation.ReflTransGen.single
        (Step.msg "1760000000.123456" exIso exToday 5 "U"
          (Inbound.text "🍾 Забронировать столик") initState)
    have r2 : Reachable exAdmins initState exS2 :=
      r1.tail (Step.msg "1760000000.123456" exIso exToday 5 "U"
        (Inbound.text "01.01.2030") exS1)
    have r3 : Reachable exAdmins initState exS3 :=
      r2.tail (Step.msg "1760000000.123456" exIso exToday 5 "U" (Inbound.text "4") exS2)
    have r4 : Reachable exAdmins initState exS4 :=
      r3.tail (Step.msg "1760000000.123456" exIso exToday 5 "U"
        (Inbound.text "+79991234567") exS3)
    have r5 : Reachable exAdmins initState exS5 :=
      r4.tail (Step.cb 1 "confirm_00123456" exS4)
    have r6 : Reachable exAdmins initState exS6 :=
      r5.tail (Step.msg "1760000100.123456" exIso exToday 5 "U"
        (Inbound.text "🍾 Забронировать столик") exS5)
    have r7 : Reachable exAdmins initState exS7 :=
      r6.tail (Step.msg "1760000100.123456" exIso exToday 5 "U"
        (Inbound.text "01.01.2030") exS6)
    have r8 : Reachable exAdmins initState exS8 :=
      r7.tail (Step.msg "1760000100.123456" exIso exToday 5 "U" (Inbound.text "4") exS7)
    exact r8.tail (Step.msg "1760000100.123456" exIso exToday 5 "U"
      (Inbound.text "+79991234567") exS8)
  · exact fun hc => absurd hc.2.2 (by decide)

/-- C1 (amended): along every trace from the initial state whose
booking-creation instants derive fresh ids (no collision with a stored
id), the table-ledger invariant holds in every reachable state:
0 ≤ available ≤ total and total − available equals the number of bookings
with type table and status confirmed. -/
theorem C1_ledger_invariant_fresh (admins : List Int) (s : GState)
    (h : ReachableFresh admins initState s) : LedgerInv s :=
  (inv_reachableFresh h).1

/-- C1 witness: the invariant at a concrete collision-free reachable
state. -/
theorem C1_witness : ReachableFresh exAdmins initState exS1 ∧ LedgerInv exS1 := by
  have hr : ReachableFresh exAdmins initState exS1 :=
    Relation.ReflTransGen.single
      (FreshStep.msg "1760000000.123456" exIso exToday 5 "U"
        (Inbound.text "🍾 Забронировать столик") initState (by decide))
  exact ⟨hr, C1_ledger_invariant_fresh exAdmins exS1 hr⟩

/-- C2: confirming a pending table booking when available = 0 answers the
insufficient-capacity error and changes nothing: the booking stays
pending and both ledger fields are untouched (the whole state is returned
unchanged). -/
theorem C2_confirm_insufficient (s : GState) (bid : String) (b : Booking)
    (hl : lookupBk s.bookings bid = some b) (hst : b.status = "pending")
    (hty : b.btype = "table") (hav : s.avail = 0) :
    process_confirm bid s = (s, [Out.cbAnswer "❌ Нет свободных столиков!"]) := by
  unfold process_confirm
  rw [hl]
  dsimp only
  rw [if_neg (show ¬b.status ≠ "pending" from fun hc => hc hst)]
  rw [if_pos (show b.btype = "table" ∧ s.avail ≤ 0 from ⟨hty, le_of_eq hav⟩)]

/-- A concrete state with one pending table booking and an exhausted
ledger. -/
def c2S : GState :=
  { bookings := [("b1",
      { id := "b1", btype := "table", date := "01.01.2030", guests := 2,
        user_id := 5, user_name := "U", phone := "79991234567",
        status := "pending", created_at := "2026-01-01T00:00:00" })],
    avail := 0, total := 1, reviews := [], sessions := [] }

/-- C2 witness: the exhausted-ledger confirm at a concrete state. -/
theorem C2_witness :
    process_confirm "b1" c2S = (c2S, [Out.cbAnswer "❌ Нет свободных столиков!"]) :=
  C2_confirm_insufficient c2S "b1" _ rfl rfl rfl rfl

/-- C3 (amended): the universal cancel input returns the session to idle
with no booking or review created and no ledger change from the
date-input, party-size, contact and review-text states; in the
review-rating state the input is silently ignored and the session stays in
that state; in the tables-count state the input is rejected as non-numeric
and the session stays in that state; in the cancellation-reason state the
input is consumed as the rejection reason (the pending cancellation
proceeds and the text is forwarded to the requester). -/
theorem C3_cancel_behavior (admins : List Int) (nowTs nowIso : String) (today : Nat)
    (uid : Int) (fullName : String) (s : GState) :
    ((getSession s uid).st = ConvState.waitCottageDate →
      handleMessage admins nowTs nowIso today uid fullName (Inbound.text "🔙 Отменить") s
        = (clearSession s uid, [Out.reply "❌ Бронирование отменено."])) ∧
    ((getSession s uid).st = ConvState.waitCottageGuests →
      handleMessage admins nowTs nowIso today uid fullName (Inbound.text "🔙 Отменить") s
        = (clearSession s uid, [Out.reply "❌ Бронирование отменено."])) ∧
    ((getSession s uid).st = ConvState.waitTableDate →
      handleMessage admins nowTs nowIso today uid fullName (Inbound.text "🔙 Отменить") s
        = (clearSession s uid, [Out.reply "❌ Бронирование отменено."])) ∧
    ((getSession s uid).st = ConvState.waitTableGuests →
      handleMessage admins nowTs nowIso today uid fullName (Inbound.text "🔙 Отменить") s
        = (clearSession s uid, [Out.reply "❌ Бронирование отменено."])) ∧
    ((getSession s uid).st = ConvState.waitContact →
      handleMessage admins nowTs nowIso today uid fullName (Inbound.text "🔙 Отменить") s
        = (clearSession s uid, [Out.reply "❌ Бронирование отменено."])) ∧
    ((getSession s uid).st = ConvState.waitReviewText →
      handleMessage admins nowTs nowIso today uid fullName (Inbound.text "🔙 Отменить") s
        = (clearSession s uid, [Out.reply "❌ Отзыв не сохранен."])) ∧
    ((getSession s uid).st = ConvState.waitReviewRating →
      handleMessage admins nowTs nowIso today uid fullName (Inbound.text "🔙 Отменить") s
        = (s, [])) ∧
    ((getSession s uid).st = ConvState.waitTablesCount →
      handleMessage admins nowTs nowIso today uid fullName (Inbound.text "🔙 Отменить") s
        = (s, [Out.reply "❌ Пожалуйста, введите число:"])) ∧
    (∀ bid b, (getSession s uid).st = ConvState.waitAdminComment →
      (getSession s uid).data.booking_id = some bid →
      lookupBk s.bookings bid = some b → b.status = "rejected" →
      handleMessage admins nowTs nowIso today uid fullName (Inbound.text "🔙 Отменить") s
        = (clearSession s uid,
           [Out.send b.user_id
              ("😔 К сожалению, ваше бронирование отклонено. Тип: " ++
               (if b.btype == "cottage" then "Коттедж" else "Столик") ++
               " Дата: " ++ b.date ++ " Гостей: " ++ toString b.guests ++
               " Причина: " ++ "🔙 Отменить" ++ " Вы можете создать новое бронирование."),
            Out.reply ("✅ Клиент уведомлен об отмене бронирования. ID: " ++ bid ++
                       " Причина: " ++ "🔙 Отменить")])) := by
  refine ⟨?_, ?_, ?_, ?_, ?_, ?_, ?_, ?_, ?_⟩
  · intro hst
    show handleText admins nowTs nowIso today uid fullName "🔙 Отменить" s = _
    unfold handleText
    rw [if_neg (by decide),
      if_neg (by decide),
      if_neg (by decide),
      if_pos (show ((getSession s uid).st == ConvState.waitCottageDate) = true by rw [hst]; rfl)]
    unfold process_cottage_date
    rw [if_pos (by decide)]
  · intro hst
    show handleText admins nowTs nowIso today uid fullName "🔙 Отменить" s = _
    unfold handleText
    rw [if_neg (by decide),
      if_neg (by decide),
      if_neg (by decide),
      if_neg (by rw [hst]; decide),
      if_pos (show ((getSession s uid).st == ConvState.waitCottageGuests) = true by rw [hst]; rfl)]
    unfold process_cottage_guests
    rw [if_pos (by decide)]
  · intro hst
    show handleText admins nowTs nowIso today uid fullName "🔙 Отменить" s = _
    unfold handleText
    rw [if_neg (by decide),
      if_neg (by decide),
      if_neg (by decide),
      if_neg (by rw [hst]; decide),
      if_neg (by rw [hst]; decide),
      if_neg (by decide),
      if_pos (show ((getSession s uid).st == ConvState.waitTableDate) = true by rw [hst]; rfl)]
    unfold process_table_date
    rw [if_pos (by decide)]
  · intro hst
    show handleText admins nowTs nowIso today uid fullName "🔙 Отменить" s = _
    unfold handleText
    rw [if_neg (by decide),
      if_neg (by decide),
      if_neg (by decide),
      if_neg (by rw [hst]; decide),
      if_neg (by rw [hst]; decide),
      if_neg (by decide),
      if_neg (by rw [hst]; decide),
      if_pos (show ((getSession s uid).st == ConvState.waitTableGuests) = true by rw [hst]; rfl)]
    unfold process_table_guests
    rw [if_pos (by decide)]
  · intro hst
    show handleText admins nowTs nowIso today uid fullName "🔙 Отменить" s = _
    unfold handleText
    rw [if_neg (by decide),
      if_neg (by decide),
      if_neg (by decide),
      if_neg (by rw [hst]; decide),
      if_neg (by rw [hst]; decide),
      if_neg (by decide),
      if_neg (by rw [hst]; decide),
      if_neg (by rw [hst]; decide),
      if_pos (show ((getSession s uid).st == ConvState.waitContact) = true by rw [hst]; rfl)]
    unfold process_contact_manual
    rw [if_pos (by decide)]
  · intro hst
    show handleText admins nowTs nowIso today uid fullName "🔙 Отменить" s = _
    unfold handleText
    rw [if_neg (by decide),
      if_neg (by decide),
      if_neg (by decide),
      if_neg (by rw [hst]; decide),
      if_neg (by rw [hst]; decide),
      if_neg (by decide),
      if_neg (by rw [hst]; decide),
      if_neg (by rw [hst]; decide),
      if_neg (by rw [hst]; decide),
      if_neg (by decide),
      if_neg (by rw [hst]; decide),
      if_pos (show ((getSession s uid).st == ConvState.waitReviewText) = true by rw [hst]; rfl)]
    unfold process_review_text
    rw [if_pos (by decide)]
  · intro hst
    show handleText admins nowTs nowIso today uid fullName "🔙 Отменить" s = _
    unfold handleText
    rw [if_neg (by decide),
      if_neg (by decide),
      if_neg (by decide),
      if_neg (by rw [hst]; decide),
      if_neg (by rw [hst]; decide),
      if_neg (by decide),
      if_neg (by rw [hst]; decide),
      if_neg (by rw [hst]; decide),
      if_neg (by rw [hst]; decide),
      if_neg (by decide),
      if_neg (by rw [hst]; decide),
      if_neg (by rw [hst]; decide),
      if_neg (by decide),
      if_neg (by decide),
      if_neg (by decide),
      if_neg (by decide),
      if_neg (by rw [hst]; decide),
      if_neg (by rw [hst]; decide)]
  · intro hst
    show handleText admins nowTs nowIso today uid fullName "🔙 Отменить" s = _
    unfold handleText
    rw [if_neg (by decide),
      if_neg (by decide),
      if_neg (by decide),
      if_neg (by rw [hst]; decide),
      if_neg (by rw [hst]; decide),
      if_neg (by decide),
      if_neg (by rw [hst]; decide),
      if_neg (by rw [hst]; decide),
      if_neg (by rw [hst]; decide),
      if_neg (by decide),
      if_neg (by rw [hst]; decide),
      if_neg (by rw [hst]; decide),
      if_neg (by decide),
      if_neg (by decide),
      if_neg (by decide),
      if_neg (by decide),
      if_pos (show ((getSession s uid).st == ConvState.waitTablesCount) = true by rw [hst]; rfl)]
    unfold process_tables_count
    rw [if_pos (by decide)]
  · intro bid b hst hbid hl hrej
    show handleText admins nowTs nowIso today uid fullName "🔙 Отменить" s = _
    unfold handleText
    rw [if_neg (by decide),
      if_neg (by decide),
      if_neg (by decide),
      if_neg (by rw [hst]; decide),
      if_neg (by rw [hst]; decide),
      if_neg (by decide),
      if_neg (by rw [hst]; decide),
      if_neg (by rw [hst]; decide),
      if_neg (by rw [hst]; decide),
      if_neg (by decide),
      if_neg (by rw [hst]; decide),
      if_neg (by rw [hst]; decide),
      if_neg (by decide),
      if_neg (by decide),
      if_neg (by decide),
      if_neg (by decide),
      if_neg (by rw [hst]; decide),
      if_pos (show ((getSession s uid).st == ConvState.waitAdminComment) = true by rw [hst]; rfl)]
    unfold process_admin_comment
    rw [hbid]
    dsimp only
    rw [hl]
    dsimp only
    rw [if_neg (show ¬b.status ≠ "rejected" from fun hc => hc hrej)]
    rfl

/-- A concrete state whose administrator session sits in the tables-count
conversation state. -/
def c3S : GState :=
  { bookings := [], avail := 10, total := 10, reviews := [],
    sessions := [(1, { st := ConvState.waitTablesCount, data := {} })] }

/-- A concrete state whose user session sits in the cottage-date
conversation state. -/
def c3SDate : GState :=
  { bookings := [], avail := 10, total := 10, reviews := [],
    sessions := [(5, { st := ConvState.waitCottageDate, data := {} })] }

/-- C3 counterexample: in the tables-count state the universal cancel
input does not return the session to idle — the handler has no cancel
branch, re-prompts for a number, and the session remains in the
tables-count state. -/
theorem C3_counterexample :
    (getSession (handleMessage exAdmins "1760000200.000001" exIso exToday 1 "A"
        (Inbound.text "🔙 Отменить") c3S).1 1).st = ConvState.waitTablesCount ∧
    ConvState.waitTablesCount ≠ ConvState.idle := by
  exact ⟨by decide, by decide⟩

/-- C3 witness: the cancel input at two concrete sessions — the cottage
date state returns to idle with the draft discarded, the tables-count
state stays put with a re-prompt. -/
theorem C3_witness :
    handleMessage exAdmins "1760000200.000001" exIso exToday 5 "U"
        (Inbound.text "🔙 Отменить") c3SDate
      = (clearSession c3SDate 5, [Out.reply "❌ Бронирование отменено."]) ∧
    handleMessage exAdmins "1760000200.000001" exIso exToday 1 "A"
        (Inbound.text "🔙 Отменить") c3S
      = (c3S, [Out.reply "❌ Пожалуйста, введите число:"]) := by
  constructor
  · exact (C3_cancel_behavior exAdmins "1760000200.000001" exIso exToday 5 "U" c3SDate).1 rfl
  · exact (C3_cancel_behavior exAdmins "1760000200.000001" exIso exToday 1 "A" c3S).2.2.2.2.2.2.2.1 rfl

theorem getSession_setSession_self (s : GState) (uid : Int) (sess : Session) :
    getSession (setSession s uid sess) uid = sess := by
  unfold getSession setSession
  rw [List.find?_cons_of_pos _ (by simp)]
  rfl

/-- C4: administratively cancelling a confirmed table booking — the cancel
decision click followed by the reason message — releases exactly one unit
back to the ledger (available + 1, total unchanged) and sets the booking
to rejected; and a reject decision click on an already-rejected booking
answers the already-decided error and returns the state unchanged. -/
theorem C4_cancel_and_reject :
    (∀ (uid : Int) (bid t : String) (s : GState) (b : Booking),
      lookupBk s.bookings bid = some b → b.status = "confirmed" → b.btype = "table" →
      (process_admin_comment uid (some t) (process_cancel uid bid s).1).1.avail = s.avail + 1 ∧
      (process_admin_comment uid (some t) (process_cancel uid bid s).1).1.total = s.total ∧
      lookupBk (process_admin_comment uid (some t) (process_cancel uid bid s).1).1.bookings bid
        = some { b with status := "rejected" }) ∧
    (∀ (uid : Int) (bid : String) (s : GState) (b : Booking),
      lookupBk s.bookings bid = some b → b.status = "rejected" →
      process_reject uid bid s = (s, [Out.cbAnswer "ℹ️ Это бронирование уже обработано!"])) := by
  constructor
  · intro uid bid t s b hl hst hty
    have hc1 : (process_cancel uid bid s).1
        = setSession s uid
            { st := ConvState.waitAdminComment,
              data := { (getSession s uid).data with booking_id := some bid } } := by
      unfold process_cancel
      rw [hl]
      dsimp only
      rw [if_neg (show ¬b.status ≠ "confirmed" from fun hc => hc hst)]
    rw [hc1]
    unfold process_admin_comment
    rw [getSession_setSession_self]
    dsimp only
    rw [show (setSession s uid
        { st := ConvState.waitAdminComment,
          data := { (getSession s uid).data with booking_id := some bid } }).bookings
        = s.bookings from rfl, hl]
    dsimp only
    rw [if_pos (show b.status ≠ "rejected" by rw [hst]; decide)]
    rw [show (b.btype == "table") = true by rw [hty]; rfl]
    refine ⟨rfl, rfl, ?_⟩
    exact lookupBk_updateStatusBk_self "rejected" hl
  · intro uid bid s b hl hst
    unfold process_reject
    rw [hl]
    dsimp only
    rw [if_pos (show b.status ≠ "pending" by rw [hst]; decide)]

/-- A concrete state with one confirmed table booking and one rejected
booking, one unit of capacity committed. -/
def c4S : GState :=
  { bookings := [("c1",
      { id := "c1", btype := "table", date := "02.01.2030", guests := 2,
        user_id := 7, user_name := "V", phone := "79991234568",
        status := "confirmed", created_at := "2026-01-02T00:00:00" }),
     ("r1",
      { id := "r1", btype := "table", date := "03.01.2030", guests := 3,
        user_id := 8, user_name := "W", phone := "79991234569",
        status := "rejected", created_at := "2026-01-03T00:00:00" })],
    avail := 1, total := 2, reviews := [], sessions := [] }

/-- C4 witness: the cancel-then-reason path at a concrete confirmed table
booking, and a reject click on a concrete already-rejected booking. -/
theorem C4_witness :
    (process_admin_comment 1 (some "тест") (process_cancel 1 "c1" c4S).1).1.avail
      = c4S.avail + 1 ∧
    (process_admin_comment 1 (some "тест") (process_cancel 1 "c1" c4S).1).1.total = c4S.total ∧
    lookupBk (process_admin_comment 1 (some "тест") (process_cancel 1 "c1" c4S).1).1.bookings "c1"
      = some { id := "c1", btype := "table", date := "02.01.2030", guests := 2,
               user_id := 7, user_name := "V", phone := "79991234568",
               status := "rejected", created_at := "2026-01-02T00:00:00" } ∧
    process_reject 1 "r1" c4S = (c4S, [Out.cbAnswer "ℹ️ Это бронирование уже обработано!"]) := by
  obtain ⟨h1, h2, h3⟩ := C4_cancel_and_reject.1 1 "c1" "тест" c4S _ rfl rfl rfl
  exact ⟨h1, h2, h3, C4_cancel_and_reject.2 1 "r1" c4S _ rfl rfl⟩

/-- C5: the resize operation on a numeric input fails (state unchanged,
specific error reply) when the new total is below 1 or below the committed
count total − available; otherwise it sets total to the new value and
recomputes available as exactly the new total minus the committed count,
leaving the booking store untouched. -/
theorem C5_resize (uid : Int) (t : String) (s : GState) (hdig : pyIsDigit t = true) :
    ((pyToNat t : Int) < 1 →
      process_tables_count uid t s
        = (s, [Out.reply "❌ Количество столиков должно быть положительным числом. Введите корректное значение:"])) ∧
    (1 ≤ (pyToNat t : Int) → (pyToNat t : Int) < s.total - s.avail →
      process_tables_count uid t s
        = (s, [Out.reply ("❌ Нельзя установить меньше " ++ toString (s.total - s.avail) ++
            " столиков (уже забронировано).")])) ∧
    (1 ≤ (pyToNat t : Int) → s.total - s.avail ≤ (pyToNat t : Int) →
      (process_tables_count uid t s).1.total = (pyToNat t : Int) ∧
      (process_tables_count uid t s).1.avail = (pyToNat t : Int) - (s.total - s.avail) ∧
      (process_tables_count uid t s).1.bookings = s.bookings) := by
  unfold process_tables_count
  rw [if_neg (show ¬(!pyIsDigit t) = true by rw [hdig]; decide)]
  dsimp only
  refine ⟨fun hlt => ?_, fun h1 h2 => ?_, fun h1 h2 => ?_⟩
  · rw [if_pos hlt]
  · rw [if_neg (not_lt.mpr h1), if_pos h2]
  · rw [if_neg (not_lt.mpr h1), if_neg (not_lt.mpr h2)]
    exact ⟨rfl, rfl, rfl⟩

/-- A concrete ledger with two committed tables. -/
def c5S : GState :=
  { bookings := [], avail := 1, total := 3, reviews := [], sessions := [] }

/-- C5 witness: resize at the concrete ledger — growing to 5 recomputes
available as 3, resizing to 0 or below the committed count fails
unchanged. -/
theorem C5_witness :
    (process_tables_count 1 "5" c5S).1.total = (pyToNat "5" : Int) ∧
    (process_tables_count 1 "5" c5S).1.avail = (pyToNat "5" : Int) - (c5S.total - c5S.avail) ∧
    process_tables_count 1 "0" c5S
      = (c5S, [Out.reply "❌ Количество столиков должно быть положительным числом. Введите корректное значение:"]) ∧
    process_tables_count 1 "1" c5S
      = (c5S, [Out.reply ("❌ Нельзя установить меньше " ++ toString (c5S.total - c5S.avail) ++
          " столиков (уже забронировано).")]) := by
  obtain ⟨ht, ha, _⟩ := (C5_resize 1 "5" c5S rfl).2.2 (by decide) (by decide)
  exact ⟨ht, ha, (C5_resize 1 "0" c5S rfl).1 (by decide),
    (C5_resize 1 "1" c5S rfl).2.1 (by decide) (by decide)⟩

/-- C6: booking creation from a completed draft fails with the duplicate
warning, stores nothing and notifies nobody when a pending booking with
the same requester, date and type already exists; otherwise it stores a
new pending record under the time-derived id and notifies every
administrator with a decision affordance carrying that id. -/
theorem C6_create (admins : List Int) (nowTs nowIso : String) (uid : Int)
    (fullName phone bdate btype : String) (guests : Nat) (s : GState)
    (hbd : (getSession s uid).data.booking_date = some bdate)
    (hbt : (getSession s uid).data.booking_type = some btype)
    (hg : (getSession s uid).data.guests = some guests) :
    ((∃ p ∈ s.bookings, p.2.user_id = uid ∧ p.2.date = bdate ∧ p.2.btype = btype ∧
        p.2.status = "pending") →
      saveBooking admins nowTs nowIso uid fullName phone s
        = (clearSession s uid, [Out.reply "⚠️ У вас уже есть ожидающее бронирование на эту дату."])) ∧
    ((¬∃ p ∈ s.bookings, p.2.user_id = uid ∧ p.2.date = bdate ∧ p.2.btype = btype ∧
        p.2.status = "pending") →
      (saveBooking admins nowTs nowIso uid fullName phone s).1.bookings
        = insertBk s.bookings (deriveId nowTs)
            { id := deriveId nowTs, btype := btype, date := bdate, guests := guests,
              user_id := uid, user_name := fullName, phone := phone,
              status := "pending", created_at := nowIso } ∧
      (saveBooking admins nowTs nowIso uid fullName phone s).2
        = notify_admins admins
            ("📌 Новая заявка на бронирование: Тип: " ++
             (if btype == "cottage" then "Коттедж" else "Столик") ++
             " Дата: " ++ bdate ++ " Гостей: " ++ toString guests ++
             " Клиент: " ++ fullName ++ " Телефон: " ++ phone ++
             " ID брони: " ++ deriveId nowTs)
            (some (deriveId nowTs))
          ++ [Out.reply "✅ Ваша заявка принята! Ожидайте подтверждения от администратора."]) := by
  have hiff : (s.bookings.any fun p =>
      p.2.user_id == uid && p.2.date == bdate && p.2.btype == btype &&
        p.2.status == "pending") = true ↔
      (∃ p ∈ s.bookings, p.2.user_id = uid ∧ p.2.date = bdate ∧ p.2.btype = btype ∧
        p.2.status = "pending") := by
    simp [List.any_eq_true, and_assoc]
  unfold saveBooking
  dsimp only
  rw [hbd, hbt, hg]
  dsimp only
  refine ⟨fun hdup => ?_, fun hnd => ?_⟩
  · rw [if_pos (hiff.mpr hdup)]
  · rw [if_neg (fun hc => hnd (hiff.mp hc))]
    exact ⟨rfl, rfl⟩

/-- A completed table draft for 05.01.2030 held by the session of user 5. -/
def c6Sess : Session :=
  { st := ConvState.waitContact,
    data := { booking_date := some "05.01.2030", booking_type := some "table",
              guests := some 2, rating := none, booking_id := none } }

/-- A state where user 5 already has an identical pending table booking. -/
def c6Dup : GState :=
  { bookings := [("d1",
      { id := "d1", btype := "table", date := "05.01.2030", guests := 4,
        user_id := 5, user_name := "U", phone := "79991234567",
        status := "pending", created_at := "2026-01-05T00:00:00" })],
    avail := 10, total := 10, reviews := [], sessions := [(5, c6Sess)] }

/-- A state with the same draft and no duplicate. -/
def c6Fresh : GState :=
  { bookings := [], avail := 10, total := 10, reviews := [], sessions := [(5, c6Sess)] }

/-- C6 witness: the duplicate draft is refused with nothing stored; the
fresh draft is stored as pending under the derived id. -/
theorem C6_witness :
    saveBooking exAdmins "1760000300.000001" exIso 5 "U" "79991234567" c6Dup
      = (clearSession c6Dup 5, [Out.reply "⚠️ У вас уже есть ожидающее бронирование на эту дату."]) ∧
    (saveBooking exAdmins "1760000300.000001" exIso 5 "U" "79991234567" c6Fresh).1.bookings
      = insertBk c6Fresh.bookings (deriveId "1760000300.000001")
          { id := deriveId "1760000300.000001", btype := "table", date := "05.01.2030",
            guests := 2, user_id := 5, user_name := "U", phone := "79991234567",
            status := "pending", created_at := exIso } := by
  constructor
  · exact (C6_create exAdmins "1760000300.000001" exIso 5 "U" "79991234567"
      "05.01.2030" "table" 2 c6Dup rfl rfl rfl).1 (by decide)
  · exact ((C6_create exAdmins "1760000300.000001" exIso 5 "U" "79991234567"
      "05.01.2030" "table" 2 c6Fresh rfl rfl rfl).2 (by decide)).1

/-- A confirmed cottage booking for 01.06.2026. -/
def c7A : Booking :=
  { id := "A", btype := "cottage", date := "01.06.2026", guests := 2,
    user_id := 5, user_name := "U", phone := "79991234567",
    status := "confirmed", created_at := "2026-05-01T00:00:00" }

/-- A second, still pending cottage booking for the same date. -/
def c7B : Booking :=
  { id := "B", btype := "cottage", date := "01.06.2026", guests := 3,
    user_id := 6, user_name := "V", phone := "79991234568",
    status := "pending", created_at := "2026-05-02T00:00:00" }

/-- A state with both cottage bookings for the same date. -/
def c7S : GState :=
  { bookings := [("A", c7A), ("B", c7B)], avail := 10, total := 10,
    reviews := [], sessions := [] }

/-- C7 counterexample: the date 01.06.2026 is already unavailable
(a confirmed cottage booking occupies it), yet confirming the pending
cottage booking B for that date succeeds, leaving two confirmed cottage
bookings on the same date — the confirm operation performs no
date-availability re-check. -/
theorem C7_counterexample :
    is_date_available c7S "cottage" "01.06.2026" = false ∧
    (lookupBk ((process_confirm "B" c7S).1).bookings "B").map Booking.status
      = some "confirmed" ∧
    (lookupBk ((process_confirm "B" c7S).1).bookings "A").map Booking.status
      = some "confirmed" ∧
    c7A.date = c7B.date := by decide

/-- C7 (amended): cottage confirmation performs no date re-check: a pending
cottage booking is always set to confirmed by the confirm operation, with
no ledger change, even when the cottage date-availability predicate is
already false for its date; that predicate is consulted only at
date-submission time, where an unavailable date re-prompts without
advancing the session. -/
theorem C7_cottage_confirm_no_recheck (s : GState) (bid : String) (b : Booking)
    (hl : lookupBk s.bookings bid = some b) (hpend : b.status = "pending")
    (hty : b.btype = "cottage")
    (_hocc : is_date_available s "cottage" b.date = false) :
    ((process_confirm bid s).1.bookings = updateStatusBk s.bookings bid "confirmed" ∧
     (process_confirm bid s).1.avail = s.avail ∧
     (process_confirm bid s).1.total = s.total ∧
     lookupBk (process_confirm bid s).1.bookings bid = some { b with status := "confirmed" }) ∧
    (∀ (today : Nat) (uid : Int) (t : String) (dmy : Nat × Nat × Nat),
      (t == "🔙 Отменить") = false → parseDate t = some dmy →
      ¬dateOrdinal dmy < today → ¬today + 365 < dateOrdinal dmy →
      is_date_available s "cottage" t = false →
      process_cottage_date today uid t s
        = (s, [Out.reply "❌ К сожалению, коттедж на эту дату уже забронирован. Выберите другую дату:"])) := by
  constructor
  · unfold process_confirm
    rw [hl]
    dsimp only
    rw [if_neg (show ¬b.status ≠ "pending" from fun hc => hc hpend)]
    rw [if_neg (show ¬(b.btype = "table" ∧ s.avail ≤ 0) from
      fun hc => by rw [hty] at hc; exact absurd hc.1 (by decide))]
    rw [show (b.btype == "table") = false by rw [hty]; rfl]
    exact ⟨rfl, rfl, rfl, lookupBk_updateStatusBk_self "confirmed" hl⟩
  · intro today uid t dmy hcanc hparse hlo hhi hunav
    unfold process_cottage_date
    rw [if_neg (show ¬(t == "🔙 Отменить") = true by rw [hcanc]; decide)]
    rw [hparse]
    dsimp only
    rw [if_neg hlo, if_neg hhi, if_pos (show (!is_date_available s "cottage" t) = true by
      rw [hunav]; rfl)]

/-- C7 witness: the no-recheck confirm and the submission-time refusal at
the concrete two-cottage state. -/
theorem C7_witness :
    ((process_confirm "B" c7S).1.bookings = updateStatusBk c7S.bookings "B" "confirmed" ∧
     (process_confirm "B" c7S).1.avail = c7S.avail ∧
     (process_confirm "B" c7S).1.total = c7S.total ∧
     lookupBk (process_confirm "B" c7S).1.bookings "B"
       = some { c7B with status := "confirmed" }) ∧
    process_cottage_date (dateOrdinal (1, 6, 2026)) 9 "01.06.2026" c7S
      = (c7S, [Out.reply "❌ К сожалению, коттедж на эту дату уже забронирован. Выберите другую дату:"]) := by
  obtain ⟨h1, h2⟩ := C7_cottage_confirm_no_recheck c7S "B" c7B rfl rfl rfl (by decide)
  exact ⟨h1, h2 (dateOrdinal (1, 6, 2026)) 9 "01.06.2026" (1, 6, 2026)
    (by decide) (by decide) (by decide) (by decide) (by decide)⟩

/-- C8 counterexample: a non-administrator invoking the list operation
receives no response at all — the handler silently returns — rather than a
generic access-denied response (no side effect occurs, but the claimed
response is absent). -/
theorem C8_counterexample :
    exAdmins.contains 2 = false ∧
    handleMessage exAdmins "1760000400.000001" exIso exToday 2 "N"
        (Inbound.text "📋 Список бронирований") initState = (initState, []) := by
  exact ⟨by decide, by decide⟩

/-- C8 (amended): a non-administrator firing any decision callback receives
the generic access-denied answer and the state is unchanged; a
non-administrator sending the message-based admin operations (statistics,
booking list, cancellation start, resize start) causes no side effect and
receives no response at all. -/
theorem C8_access_control :
    (∀ (admins : List Int) (uid : Int) (d : String) (s : GState),
      admins.contains uid = false →
      handleCallback admins uid d s = (s, [Out.cbAnswer "⛔ Доступ запрещен!"])) ∧
    (∀ (admins : List Int) (uid : Int) (s : GState),
      admins.contains uid = false →
      show_stats admins uid s = (s, []) ∧ list_bookings admins uid s = (s, []) ∧
      cancel_booking_start admins uid s = (s, []) ∧
      change_tables_start admins uid s = (s, [])) := by
  constructor
  · intro admins uid d s h
    unfold handleCallback
    rw [if_pos (show (!admins.contains uid) = true by rw [h]; rfl)]
  · intro admins uid s h
    refine ⟨?_, ?_, ?_, ?_⟩
    · unfold show_stats
      rw [if_pos (show (!admins.contains uid) = true by rw [h]; rfl)]
    · unfold list_bookings
      rw [if_pos (show (!admins.contains uid) = true by rw [h]; rfl)]
    · unfold cancel_booking_start
      rw [if_pos (show (!admins.contains uid) = true by rw [h]; rfl)]
    · unfold change_tables_start
      rw [if_pos (show (!admins.contains uid) = true by rw [h]; rfl)]

/-- C8 witness: the non-administrator 2 at concrete states. -/
theorem C8_witness :
    handleCallback exAdmins 2 "confirm_00123456" initState
      = (initState, [Out.cbAnswer "⛔ Доступ запрещен!"]) ∧
    show_stats exAdmins 2 initState = (initState, []) ∧
    list_bookings exAdmins 2 initState = (initState, []) ∧
    cancel_booking_start exAdmins 2 initState = (initState, []) ∧
    change_tables_start exAdmins 2 initState = (initState, []) := by
  obtain ⟨h1, h2, h3, h4⟩ := C8_access_control.2 exAdmins 2 initState (by decide)
  exact ⟨C8_access_control.1 exAdmins 2 "confirm_00123456" initState (by decide),
    h1, h2, h3, h4⟩

theorem lookupBk_filter_ne {db : List (String × Booking)} {k bid : String} (h : k ≠ bid) :
    lookupBk (db.filter (fun p => p.1 != bid)) k = lookupBk db k := by
  induction db with
  | nil => rfl
  | cons p rest ih =>
    by_cases hp : p.1 = bid
    · rw [List.filter_cons, if_neg (by simp [hp])]
      rw [lookupBk_cons_ne _ (show ¬p.1 = k from fun hc => h (by rw [← hc, hp]))]
      exact ih
    · rw [List.filter_cons, if_pos (by simp [hp])]
      by_cases hk : p.1 = k
      · rw [lookupBk_cons_eq _ hk, lookupBk_cons_eq _ hk]
      · rw [lookupBk_cons_ne _ hk, lookupBk_cons_ne _ hk]
        exact ih

/-- C9 counterexample: the creation instants 1760000000.123456 and
1760000100.123456 are distinct yet derive the same booking id (the last
eight digit characters coincide), and the second creation on the example
trace overwrites the confirmed record stored under that id: the store
keeps the same size and the record under 00123456 turns from confirmed to
a fresh pending one. -/
theorem C9_counterexample :
    "1760000000.123456" ≠ "1760000100.123456" ∧
    deriveId "1760000000.123456" = deriveId "1760000100.123456" ∧
    (lookupBk exS8.bookings "00123456").map Booking.status = some "confirmed" ∧
    exS9.bookings.length = exS8.bookings.length ∧
    (lookupBk exS9.bookings "00123456").map Booking.status = some "pending" := by decide

/-- C9 (amended): booking creation stores the new record under the id
derived from the creation timestamp; a record stored under any other id is
never deleted or overwritten by a creation — only a record under the very
id derived from the current time can be replaced (which happens exactly
when two creation times share the last eight digit characters). -/
theorem C9_create_preserves_other_ids (admins : List Int) (nowTs nowIso : String)
    (uid : Int) (fullName phone : String) (s : GState) (k : String) (b : Booking)
    (hk : lookupBk s.bookings k = some b) (hne : k ≠ deriveId nowTs) :
    lookupBk (saveBooking admins nowTs nowIso uid fullName phone s).1.bookings k
      = some b := by
  unfold saveBooking
  dsimp only
  rcases (getSession s uid).data.booking_date with _ | bdate
  · exact hk
  · rcases (getSession s uid).data.booking_type with _ | btype
    · exact hk
    · rcases (getSession s uid).data.guests with _ | guests
      · exact hk
      · dsimp only
        split
        · exact hk
        · show lookupBk (insertBk s.bookings (deriveId nowTs) _) k = some b
          unfold insertBk
          rw [lookupBk_cons_ne _ (show ¬deriveId nowTs = k from fun hc => hne hc.symm)]
          rw [lookupBk_filter_ne hne]
          exact hk

/-- The session of user 5 holding a completed cottage draft, next to an
unrelated stored booking. -/
def c9Sess : Session :=
  { st := ConvState.waitContact,
    data := { booking_date := some "07.01.2030", booking_type := some "cottage",
              guests := some 2, rating := none, booking_id := none } }

/-- A state with one prior booking under an id that cannot collide with
the creation instant used in the witness. -/
def c9S : GState :=
  { bookings := [("old1",
      { id := "old1", btype := "table", date := "06.01.2030", guests := 2,
        user_id := 9, user_name := "X", phone := "79991234560",
        status := "confirmed", created_at := "2026-01-06T00:00:00" })],
    avail := 9, total := 10, reviews := [], sessions := [(5, c9Sess)] }

/-- C9 witness: a creation at a concrete instant leaves the differently
named prior record untouched. -/
theorem C9_witness :
    lookupBk (saveBooking exAdmins "1760000500.000001" exIso 5 "U" "79991234567" c9S).1.bookings
        "old1"
      = some { id := "old1", btype := "table", date := "06.01.2030", guests := 2,
               user_id := 9, user_name := "X", phone := "79991234560",
               status := "confirmed", created_at := "2026-01-06T00:00:00" } :=
  C9_create_preserves_other_ids exAdmins "1760000500.000001" exIso 5 "U" "79991234567"
    c9S "old1" _ rfl (by decide)

/-- C10: with the ledger exhausted, the attempt to start a table booking
from the idle state is refused at entry: the user is told no tables are
free and the whole state — the idle session included — is unchanged, so no
draft exists and no date or party-size input is ever collected. -/
theorem C10_table_entry_gate (admins : List Int) (nowTs nowIso : String) (today : Nat)
    (uid : Int) (fullName : String) (s : GState)
    (hidle : (getSession s uid).st = ConvState.idle) (hav : s.avail = 0) :
    handleMessage admins nowTs nowIso today uid fullName
        (Inbound.text "🍾 Забронировать столик") s
      = (s, [Out.reply "😔 К сожалению, сейчас нет свободных столиков."]) := by
  show handleText admins nowTs nowIso today uid fullName "🍾 Забронировать столик" s = _
  unfold handleText
  rw [if_neg (by decide), if_neg (by decide), if_neg (by decide),
    if_neg (by rw [hidle]; decide), if_neg (by rw [hidle]; decide),
    if_pos (by decide)]
  unfold book_table_start
  rw [if_pos (le_of_eq hav)]

/-- An exhausted ledger with an idle session store. -/
def c10S : GState :=
  { bookings := [], avail := 0, total := 10, reviews := [], sessions := [] }

/-- C10 witness: the refused table-booking entry at the concrete exhausted
state. -/
theorem C10_witness :
    handleMessage exAdmins "1760000600.000001" exIso exToday 5 "U"
        (Inbound.text "🍾 Забронировать столик") c10S
      = (c10S, [Out.reply "😔 К сожалению, сейчас нет свободных столиков."]) :=
  C10_table_entry_gate exAdmins "1760000600.000001" exIso exToday 5 "U" c10S rfl rfl

end ClubOK
